/-
Verification of the preview-environment orchestration core
(`preview-automation-go`: main.go, deploy.go, cleanup.go).

The Go program is embedded shallowly:
* every AWS / GitHub API call is mediated by an `Oracle` record holding the
  responses the provider would give in one execution;
* every function returns its Go result (`Except String` for `error`) together
  with the list of provider calls it issued, in order, so that temporal
  claims ("delete is only issued after ...") are statements about this trace;
* `nil` slices and `nil` list pointers in the AWS SDK responses are modelled
  as empty lists, which the Go code treats identically (it only iterates).
-/
import Mathlib

set_option maxRecDepth 4000

namespace PreviewInt

/-- Go `error` results: `.ok` for `err == nil`, `.error msg` otherwise. -/
abbrev Res (α : Type) := Except String α

deriving instance DecidableEq for Except

/-! ## Configuration and derived identity (main.go) -/

/-- The flag-derived configuration (`Config` in main.go). `PRNumber` is a Go
`int`, hence `Int`. -/
structure Config where
  prNumber : Int
  appName : String
  region : String
  baseDomain : String
  certificateARN : String
  sourcePath : String
  repoOwner : String
  repoName : String
deriving DecidableEq

/-- The derived fields of `PreviewManager` (main.go lines 90-102): only the
identity-bearing fields are modelled; the AWS clients are replaced by the
`Oracle` parameter of each operation. -/
structure PreviewManager where
  cfg : Config
  bucketName : String
  fullDomain : String
  subdomain : String
deriving DecidableEq

/-- main.go lines 90-102: `bucketName := fmt.Sprintf("pr-%d-%s", cfg.PRNumber,
cfg.AppName)` and `fullDomain: fmt.Sprintf("%s.%s", bucketName,
cfg.BaseDomain)`.  Go `%d` on `int` agrees with `toString : Int → String`. -/
def mkPreviewManager (cfg : Config) : PreviewManager :=
  let bucketName := "pr-" ++ toString cfg.prNumber ++ "-" ++ cfg.appName
  { cfg := cfg
    subdomain := bucketName
    bucketName := bucketName
    fullDomain := bucketName ++ "." ++ cfg.baseDomain }

/-! ## Content types (main.go `getContentType`) -/

/-- Go `filepath.Ext` (linux separator), scanning the path backwards: stops at
the first path separator, returns the suffix from the first `.` found.  The
argument is the reversed character list of the path; `acc` holds the already
scanned characters in original order. -/
def extFromRev : List Char → List Char → List Char
  | [], _ => []
  | c :: r, acc =>
    if c = '/' then []
    else if c = '.' then c :: acc
    else extFromRev r (c :: acc)

/-- Go `filepath.Ext path`. -/
def filepathExt (path : String) : String :=
  String.mk (extFromRev path.data.reverse [])

/-- One row of the Go `unicode` case table as consumed by `unicode.To` for
the lower case: `lo`/`hi` bound a range of code points; `delta` is the
signed distance to the lower-case code point, with `none` standing for the
`UpperLower` sentinel that marks alternating upper/lower sequences. -/
structure CaseRange where
  lo : Nat
  hi : Nat
  delta : Option Int

/-- Rows 0-23 of the lower-case table. -/
def goCaseRanges0 : List CaseRange :=
  [⟨0x41, 0x5a, some 32⟩, ⟨0xc0, 0xd6, some 32⟩, ⟨0xd8, 0xde, some 32⟩, ⟨0x100, 0x12f, none⟩,
   ⟨0x130, 0x130, some (-199)⟩, ⟨0x132, 0x137, none⟩, ⟨0x139, 0x148, none⟩, ⟨0x14a, 0x177, none⟩,
   ⟨0x178, 0x178, some (-121)⟩, ⟨0x179, 0x17e, none⟩, ⟨0x181, 0x181, some 210⟩, ⟨0x182, 0x185, none⟩,
   ⟨0x186, 0x186, some 206⟩, ⟨0x187, 0x187, some 1⟩, ⟨0x189, 0x18a, some 205⟩, ⟨0x18b, 0x18b, some 1⟩,
   ⟨0x18e, 0x18e, some 79⟩, ⟨0x18f, 0x18f, some 202⟩, ⟨0x190, 0x190, some 203⟩, ⟨0x191, 0x191, some 1⟩,
   ⟨0x193, 0x193, some 205⟩, ⟨0x194, 0x194, some 207⟩, ⟨0x196, 0x196, some 211⟩, ⟨0x197, 0x197, some 209⟩]

/-- Rows 24-47 of the lower-case table. -/
def goCaseRanges1 : List CaseRange :=
  [⟨0x198, 0x198, some 1⟩, ⟨0x19c, 0x19c, some 211⟩, ⟨0x19d, 0x19d, some 213⟩, ⟨0x19f, 0x19f, some 214⟩,
   ⟨0x1a0, 0x1a5, none⟩, ⟨0x1a6, 0x1a6, some 218⟩, ⟨0x1a7, 0x1a7, some 1⟩, ⟨0x1a9, 0x1a9, some 218⟩,
   ⟨0x1ac, 0x1ac, some 1⟩, ⟨0x1ae, 0x1ae, some 218⟩, ⟨0x1af, 0x1af, some 1⟩, ⟨0x1b1, 0x1b2, some 217⟩,
   ⟨0x1b3, 0x1b6, none⟩, ⟨0x1b7, 0x1b7, some 219⟩, ⟨0x1b8, 0x1b8, some 1⟩, ⟨0x1bc, 0x1bc, some 1⟩,
   ⟨0x1c4, 0x1c4, some 2⟩, ⟨0x1c5, 0x1c5, some 1⟩, ⟨0x1c7, 0x1c7, some 2⟩, ⟨0x1c8, 0x1c8, some 1⟩,
   ⟨0x1ca, 0x1ca, some 2⟩, ⟨0x1cb, 0x1dc, none⟩, ⟨0x1de, 0x1ef, none⟩, ⟨0x1f1, 0x1f1, some 2⟩]

/-- Rows 48-71 of the lower-case table. -/
def goCaseRanges2 : List CaseRange :=
  [⟨0x1f2, 0x1f5, none⟩, ⟨0x1f6, 0x1f6, some (-97)⟩, ⟨0x1f7, 0x1f7, some (-56)⟩, ⟨0x1f8, 0x21f, none⟩,
   ⟨0x220, 0x220, some (-130)⟩, ⟨0x222, 0x233, none⟩, ⟨0x23a, 0x23a, some 10795⟩, ⟨0x23b, 0x23b, some 1⟩,
   ⟨0x23d, 0x23d, some (-163)⟩, ⟨0x23e, 0x23e, some 10792⟩, ⟨0x241, 0x241, some 1⟩, ⟨0x243, 0x243, some (-195)⟩,
   ⟨0x244, 0x244, some 69⟩, ⟨0x245, 0x245, some 71⟩, ⟨0x246, 0x24f, none⟩, ⟨0x370, 0x373, none⟩,
   ⟨0x376, 0x376, some 1⟩, ⟨0x37f, 0x37f, some 116⟩, ⟨0x386, 0x386, some 38⟩, ⟨0x388, 0x38a, some 37⟩,
   ⟨0x38c, 0x38c, some 64⟩, ⟨0x38e, 0x38f, some 63⟩, ⟨0x391, 0x3a1, some 32⟩, ⟨0x3a3, 0x3ab, some 32⟩]

/-- Rows 72-95 of the lower-case table. -/
def goCaseRanges3 : List CaseRange :=
  [⟨0x3cf, 0x3cf, some 8⟩, ⟨0x3d8, 0x3ef, none⟩, ⟨0x3f4, 0x3f4, some (-60)⟩, ⟨0x3f7, 0x3f7, some 1⟩,
   ⟨0x3f9, 0x3f9, some (-7)⟩, ⟨0x3fa, 0x3fa, some 1⟩, ⟨0x3fd, 0x3ff, some (-130)⟩, ⟨0x400, 0x40f, some 80⟩,
   ⟨0x410, 0x42f, some 32⟩, ⟨0x460, 0x481, none⟩, ⟨0x48a, 0x4bf, none⟩, ⟨0x4c0, 0x4c0, some 15⟩,
   ⟨0x4c1, 0x4ce, none⟩, ⟨0x4d0, 0x52f, none⟩, ⟨0x531, 0x556, some 48⟩, ⟨0x10a0, 0x10c5, some 7264⟩,
   ⟨0x10c7, 0x10c7, some 7264⟩, ⟨0x10cd, 0x10cd, some 7264⟩, ⟨0x13a0, 0x13ef, some 38864⟩, ⟨0x13f0, 0x13f5, some 8⟩,
   ⟨0x1c90, 0x1cba, some (-3008)⟩, ⟨0x1cbd, 0x1cbf, some (-3008)⟩, ⟨0x1e00, 0x1e95, none⟩, ⟨0x1e9e, 0x1e9e, some (-7615)⟩]

/-- Rows 96-119 of the lower-case table. -/
def goCaseRanges4 : List CaseRange :=
  [⟨0x1ea0, 0x1eff, none⟩, ⟨0x1f08, 0x1f0f, some (-8)⟩, ⟨0x1f18, 0x1f1d, some (-8)⟩, ⟨0x1f28, 0x1f2f, some (-8)⟩,
   ⟨0x1f38, 0x1f3f, some (-8)⟩, ⟨0x1f48, 0x1f4d, some (-8)⟩, ⟨0x1f59, 0x1f59, some (-8)⟩, ⟨0x1f5b, 0x1f5b, some (-8)⟩,
   ⟨0x1f5d, 0x1f5d, some (-8)⟩, ⟨0x1f5f, 0x1f5f, some (-8)⟩, ⟨0x1f68, 0x1f6f, some (-8)⟩, ⟨0x1f88, 0x1f8f, some (-8)⟩,
   ⟨0x1f98, 0x1f9f, some (-8)⟩, ⟨0x1fa8, 0x1faf, some (-8)⟩, ⟨0x1fb8, 0x1fb9, some (-8)⟩, ⟨0x1fba, 0x1fbb, some (-74)⟩,
   ⟨0x1fbc, 0x1fbc, some (-9)⟩, ⟨0x1fc8, 0x1fcb, some (-86)⟩, ⟨0x1fcc, 0x1fcc, some (-9)⟩, ⟨0x1fd8, 0x1fd9, some (-8)⟩,
   ⟨0x1fda, 0x1fdb, some (-100)⟩, ⟨0x1fe8, 0x1fe9, some (-8)⟩, ⟨0x1fea, 0x1feb, some (-112)⟩, ⟨0x1fec, 0x1fec, some (-7)⟩]

/-- Rows 120-143 of the lower-case table. -/
def goCaseRanges5 : List CaseRange :=
  [⟨0x1ff8, 0x1ff9, some (-128)⟩, ⟨0x1ffa, 0x1ffb, some (-126)⟩, ⟨0x1ffc, 0x1ffc, some (-9)⟩, ⟨0x2126, 0x2126, some (-7517)⟩,
   ⟨0x212a, 0x212a, some (-8383)⟩, ⟨0x212b, 0x212b, some (-8262)⟩, ⟨0x2132, 0x2132, some 28⟩, ⟨0x2160, 0x216f, some 16⟩,
   ⟨0x2183, 0x2183, some 1⟩, ⟨0x24b6, 0x24cf, some 26⟩, ⟨0x2c00, 0x2c2f, some 48⟩, ⟨0x2c60, 0x2c60, some 1⟩,
   ⟨0x2c62, 0x2c62, some (-10743)⟩, ⟨0x2c63, 0x2c63, some (-3814)⟩, ⟨0x2c64, 0x2c64, some (-10727)⟩, ⟨0x2c67, 0x2c6c, none⟩,
   ⟨0x2c6d, 0x2c6d, some (-10780)⟩, ⟨0x2c6e, 0x2c6e, some (-10749)⟩, ⟨0x2c6f, 0x2c6f, some (-10783)⟩, ⟨0x2c70, 0x2c70, some (-10782)⟩,
   ⟨0x2c72, 0x2c72, some 1⟩, ⟨0x2c75, 0x2c75, some 1⟩, ⟨0x2c7e, 0x2c7f, some (-10815)⟩, ⟨0x2c80, 0x2ce3, none⟩]

/-- Rows 144-167 of the lower-case table. -/
def goCaseRanges6 : List CaseRange :=
  [⟨0x2ceb, 0x2cee, none⟩, ⟨0x2cf2, 0x2cf2, some 1⟩, ⟨0xa640, 0xa66d, none⟩, ⟨0xa680, 0xa69b, none⟩,
   ⟨0xa722, 0xa72f, none⟩, ⟨0xa732, 0xa76f, none⟩, ⟨0xa779, 0xa77c, none⟩, ⟨0xa77d, 0xa77d, some (-35332)⟩,
   ⟨0xa77e, 0xa787, none⟩, ⟨0xa78b, 0xa78b, some 1⟩, ⟨0xa78d, 0xa78d, some (-42280)⟩, ⟨0xa790, 0xa793, none⟩,
   ⟨0xa796, 0xa7a9, none⟩, ⟨0xa7aa, 0xa7aa, some (-42308)⟩, ⟨0xa7ab, 0xa7ab, some (-42319)⟩, ⟨0xa7ac, 0xa7ac, some (-42315)⟩,
   ⟨0xa7ad, 0xa7ad, some (-42305)⟩, ⟨0xa7ae, 0xa7ae, some (-42308)⟩, ⟨0xa7b0, 0xa7b0, some (-42258)⟩, ⟨0xa7b1, 0xa7b1, some (-42282)⟩,
   ⟨0xa7b2, 0xa7b2, some (-42261)⟩, ⟨0xa7b3, 0xa7b3, some 928⟩, ⟨0xa7b4, 0xa7c3, none⟩, ⟨0xa7c4, 0xa7c4, some (-48)⟩]

/-- Rows 168-184 of the lower-case table. -/
def goCaseRanges7 : List CaseRange :=
  [⟨0xa7c5, 0xa7c5, some (-42307)⟩, ⟨0xa7c6, 0xa7c6, some (-35384)⟩, ⟨0xa7c7, 0xa7ca, none⟩, ⟨0xa7d0, 0xa7d0, some 1⟩,
   ⟨0xa7d6, 0xa7d9, none⟩, ⟨0xa7f5, 0xa7f5, some 1⟩, ⟨0xff21, 0xff3a, some 32⟩, ⟨0x10400, 0x10427, some 40⟩,
   ⟨0x104b0, 0x104d3, some 40⟩, ⟨0x10570, 0x1057a, some 39⟩, ⟨0x1057c, 0x1058a, some 39⟩, ⟨0x1058c, 0x10592, some 39⟩,
   ⟨0x10594, 0x10595, some 39⟩, ⟨0x10c80, 0x10cb2, some 64⟩, ⟨0x118a0, 0x118bf, some 32⟩, ⟨0x16e40, 0x16e5f, some 32⟩,
   ⟨0x1e900, 0x1e921, some 34⟩]

/-- The simple lower-case mapping of the Go `unicode` package case table
(the lower-case column of `_CaseRanges`), as sorted disjoint ranges of code
points; it maps, for example, U+0130 to U+0069. -/
def goCaseRanges : List CaseRange :=
  goCaseRanges0 ++ goCaseRanges1 ++ goCaseRanges2 ++ goCaseRanges3 ++ goCaseRanges4 ++ goCaseRanges5 ++ goCaseRanges6 ++ goCaseRanges7

/-- Go `unicode.To(LowerCase, r)` over the sorted, disjoint `goCaseRanges`:
the containing range (if any) decides the mapping — a plain signed delta, or
the alternating-sequence rule `lo + ((r - lo) with the low bit set)`; code
points contained in no range map to themselves.  Go finds the containing
range by binary search over the same table, which yields the same row. -/
def lowerRune : Nat → List CaseRange → Nat
  | r, [] => r
  | r, cr :: rest =>
    if cr.lo ≤ r ∧ r ≤ cr.hi then
      match cr.delta with
      | some d => (Int.ofNat r + d).toNat
      | none => cr.lo + ((r - cr.lo) / 2 * 2 + 1)
    else lowerRune r rest

/-- Go `unicode.ToLower`: the ASCII fast path, then the case table. -/
def goToLowerChar (c : Char) : Char :=
  if c.toNat ≤ 0x7f then
    (if 0x41 ≤ c.toNat ∧ c.toNat ≤ 0x5a then Char.ofNat (c.toNat + 32) else c)
  else Char.ofNat (lowerRune c.toNat goCaseRanges)

/-- Go `strings.ToLower`: `unicode.ToLower` applied to every rune (the
all-ASCII fast path of the Go implementation computes the same function). -/
def toLowerString (s : String) : String :=
  String.mk (s.data.map goToLowerChar)

/-- The fixed extension-to-MIME table of main.go lines 121-135 (a Go map with
distinct keys, modelled as an association list). -/
def contentTypes : List (String × String) :=
  [(".html", "text/html"),
   (".css", "text/css"),
   (".js", "application/javascript"),
   (".json", "application/json"),
   (".png", "image/png"),
   (".jpg", "image/jpeg"),
   (".jpeg", "image/jpeg"),
   (".gif", "image/gif"),
   (".svg", "image/svg+xml"),
   (".ico", "image/x-icon"),
   (".xml", "application/xml"),
   (".pdf", "application/pdf"),
   (".txt", "text/plain")]

/-- main.go `getContentType`: the lowercased extension (Go local `ext`)
looked up in the fixed table, defaulting to `application/octet-stream`. -/
def getContentType (filename : String) : String :=
  match contentTypes.lookup (toLowerString (filepathExt filename)) with
  | some ct => ct
  | none => "application/octet-stream"

/-! ## Provider data (the AWS SDK response fields the code reads) -/

/-- An origin access control list item: the code reads `Name` and `Id`. -/
structure OAC where
  name : String
  id : String
deriving DecidableEq

/-- A `ListDistributions` summary item: the code reads `Aliases.Items`
(modelled as a plain list, `nil` becoming `[]`) and `Id`. -/
structure DistSummary where
  id : String
  aliases : List String
deriving DecidableEq

/-- A `GetDistribution` result: the code reads `ARN` and `DomainName`. -/
structure Dist where
  arn : String
  domainName : String
deriving DecidableEq

/-- A hosted-zone list item: the code reads `Name` (implicitly, via the query)
and `Id`. -/
structure Zone where
  name : String
  id : String
deriving DecidableEq

/-- A resource record set: the code reads `Name` and passes the whole set
verbatim back in a delete change; `value` stands for the remaining fields
carried through unchanged. -/
structure RRSet where
  name : String
  value : String
deriving DecidableEq

/-- A `GetDistributionConfig` result: the config `Enabled` flag plus the
`ETag` version token; the remaining config fields are carried opaquely. -/
structure DistConfigOut where
  enabled : Bool
  etag : String
deriving DecidableEq

/-- One event produced by `filepath.Walk` over the source directory:
a callback error, a directory entry, or a regular file with the outcome of
`os.ReadFile` on it. -/
inductive WalkItem where
  | fault (msg : String)
  | dir
  | file (path : String) (data : Res String)
deriving DecidableEq

/-- The provider calls the program can issue, as recorded in execution
traces. -/
inductive Call where
  | headBucket (bucket : String)
  | createBucket (bucket region : String)
  | putObject (bucket key contentType : String)
  | listOriginAccessControls
  | createOriginAccessControl (name : String)
  | listDistributions
  | createDistribution (aliasHost oacID certificateARN : String)
  | getDistribution (id : String)
  | putBucketPolicy (bucket policy : String)
  | createInvalidation (id path0 : String)
  | listHostedZonesByName (dnsName : String)
  | upsertRecord (zoneID name target : String)
  | deleteRecord (zoneID : String) (rr : RRSet)
  | getDistributionConfig (id : String)
  | updateDistribution (id : String) (enabled : Bool) (ifMatch : String)
  | waitDistributionDeployed (id : String)
  | deleteDistribution (id : String) (ifMatch : String)
  | listResourceRecordSets (zoneID startName : String)
  | listObjectsPage (bucket : String)
  | deleteObjects (bucket : String) (keys : List String)
  | deleteBucket (bucket : String)
  | createComment (owner repo : String) (number : Int) (body : String)
deriving DecidableEq

/-- One execution environment: the response every provider call would
receive, plus the filesystem walk of the source directory and whether the
GitHub client is `nil`.  `getDistributionConfig` is indexed by its occurrence
number inside a teardown because the code calls it twice and the provider may
answer differently each time.  `relSlash` stands for
`filepath.ToSlash(filepath.Rel(SourcePath, path))`, an uninterpreted pure
library function. -/
structure Oracle where
  headBucket : String → Res Unit
  createBucket : String → Res Unit
  walkItems : List WalkItem
  relSlash : String → Res String
  putObject : String → String → String → Res Unit
  listOriginAccessControls : Res (List OAC)
  createOriginAccessControl : String → Res String
  listDistributions : Res (List DistSummary)
  createDistribution : String → Res String
  getDistribution : String → Res Dist
  putBucketPolicy : String → String → Res Unit
  createInvalidation : String → Res Unit
  listHostedZonesByName : String → Res (List Zone)
  upsertRecord : String → String → String → Res Unit
  deleteRecord : String → RRSet → Res Unit
  getDistributionConfig : Nat → Res DistConfigOut
  updateDistribution : Bool → String → Res Unit
  waitDistributionDeployed : Res Unit
  deleteDistribution : String → Res Unit
  listResourceRecordSets : String → String → Res (List RRSet)
  listObjectsPages : List (Res (List String))
  deleteObjects : List String → Res Unit
  deleteBucket : String → Res Unit
  createComment : String → Res Unit
  githubNil : Bool

/-! ## Deploy-side operations (deploy.go) -/

/-- deploy.go lines 61-90 `createS3Bucket`: `HeadBucket` success means the
bucket exists and the step is a no-op; otherwise `CreateBucket` is issued
(with a location constraint when the region is not us-east-1, recorded via
the region argument of the call). -/
def createS3Bucket (pm : PreviewManager) (o : Oracle) : Res Unit × List Call :=
  match o.headBucket pm.bucketName with
  | .ok _ => (.ok (), [.headBucket pm.bucketName])
  | .error _ =>
    match o.createBucket pm.bucketName with
    | .error e => (.error ("failed to create bucket: " ++ e),
        [.headBucket pm.bucketName, .createBucket pm.bucketName pm.cfg.region])
    | .ok _ => (.ok (),
        [.headBucket pm.bucketName, .createBucket pm.bucketName pm.cfg.region])

/-- The `filepath.Walk` callback of deploy.go lines 96-131, folded over the
walk events: callback errors and read failures abort the walk; directories
are skipped; each file is uploaded under its slash-normalized relative path
with its inferred content type. -/
def syncWalk (pm : PreviewManager) (o : Oracle) : List WalkItem → Res Unit × List Call
  | [] => (.ok (), [])
  | .fault e :: _ => (.error e, [])
  | .dir :: rest => syncWalk pm o rest
  | .file path data :: rest =>
    match o.relSlash path with
    | .error e => (.error e, [])
    | .ok s3Key =>
      match data with
      | .error e => (.error ("failed to read file " ++ path ++ ": " ++ e), [])
      | .ok _ =>
        match o.putObject pm.bucketName s3Key (getContentType path) with
        | .error e => (.error ("failed to upload " ++ s3Key ++ ": " ++ e),
            [.putObject pm.bucketName s3Key (getContentType path)])
        | .ok _ =>
          let r := syncWalk pm o rest
          (r.1, .putObject pm.bucketName s3Key (getContentType path) :: r.2)

/-- deploy.go lines 92-138 `syncFilesToS3`. -/
def syncFilesToS3 (pm : PreviewManager) (o : Oracle) : Res Unit × List Call :=
  syncWalk pm o o.walkItems

/-- deploy.go lines 140-176 `getOrCreateOAC`: list all OACs, return the id of
the first one named `OAC-{bucketName}`, else create one with that name. -/
def getOrCreateOAC (pm : PreviewManager) (o : Oracle) : Res String × List Call :=
  let oacName := "OAC-" ++ pm.bucketName
  match o.listOriginAccessControls with
  | .error e => (.error ("failed to list OACs: " ++ e), [.listOriginAccessControls])
  | .ok items =>
    match items.find? (fun oac => oac.name == oacName) with
    | some oac => (.ok oac.id, [.listOriginAccessControls])
    | none =>
      match o.createOriginAccessControl oacName with
      | .error e => (.error ("failed to create OAC: " ++ e),
          [.listOriginAccessControls, .createOriginAccessControl oacName])
      | .ok oacID => (.ok oacID,
          [.listOriginAccessControls, .createOriginAccessControl oacName])

/-- deploy.go lines 238-259 `findCloudFrontDistribution`: scan all
distributions for one whose alias list contains the full domain; the empty
string signals absence. -/
def findCloudFrontDistribution (pm : PreviewManager) (o : Oracle) :
    Res String × List Call :=
  match o.listDistributions with
  | .error e => (.error ("failed to list distributions: " ++ e), [.listDistributions])
  | .ok items =>
    match items.find? (fun d => d.aliases.contains pm.fullDomain) with
    | some d => (.ok d.id, [.listDistributions])
    | none => (.ok "", [.listDistributions])

/-- deploy.go lines 261-351 `createCloudFrontDistribution`: submits the fixed
distribution config (single alias `fullDomain`, the given OAC, the optional
certificate); the time-derived caller reference is not modelled. -/
def createCloudFrontDistribution (pm : PreviewManager) (o : Oracle)
    (oacID : String) : Res String × List Call :=
  match o.createDistribution oacID with
  | .error e => (.error ("failed to create distribution: " ++ e),
      [.createDistribution pm.fullDomain oacID pm.cfg.certificateARN])
  | .ok id => (.ok id,
      [.createDistribution pm.fullDomain oacID pm.cfg.certificateARN])

/-- deploy.go lines 222-236 `getOrCreateCloudFrontDistribution`. -/
def getOrCreateCloudFrontDistribution (pm : PreviewManager) (o : Oracle)
    (oacID : String) : Res String × List Call :=
  match findCloudFrontDistribution pm o with
  | (.error e, t) => (.error e, t)
  | (.ok distributionID, t) =>
    if distributionID ≠ "" then (.ok distributionID, t)
    else
      let r := createCloudFrontDistribution pm o oacID
      (r.1, t ++ r.2)

/-- The policy document of deploy.go lines 190-208, byte for byte (Go raw
string with tab indentation), with the bucket name and distribution ARN
interpolated. -/
def bucketPolicyDoc (bucket arn : String) : String :=
  "\x7b\n\t\t\"Version\": \"2012-10-17\",\n\t\t\"Statement\": [\n\t\t\t\x7b\n\t\t\t\t\"Sid\": \"AllowCloudFrontServicePrincipal\",\n\t\t\t\t\"Effect\": \"Allow\",\n\t\t\t\t\"Principal\": \x7b\n\t\t\t\t\t\"Service\": \"cloudfront.amazonaws.com\"\n\t\t\t\t\x7d,\n\t\t\t\t\"Action\": \"s3:GetObject\",\n\t\t\t\t\"Resource\": \"arn:aws:s3:::" ++ bucket ++
  "/*\",\n\t\t\t\t\"Condition\": \x7b\n\t\t\t\t\t\"StringEquals\": \x7b\n\t\t\t\t\t\t\"AWS:SourceArn\": \"" ++ arn ++
  "\"\n\t\t\t\t\t\x7d\n\t\t\t\t\x7d\n\t\t\t\x7d\n\t\t]\n\t\x7d"

/-- deploy.go lines 178-220 `setBucketPolicyForOAC`: fetch the distribution
for its ARN, then overwrite the bucket policy with the generated document. -/
def setBucketPolicyForOAC (pm : PreviewManager) (o : Oracle)
    (distributionID : String) : Res Unit × List Call :=
  match o.getDistribution distributionID with
  | .error e => (.error ("failed to get distribution: " ++ e),
      [.getDistribution distributionID])
  | .ok dist =>
    let policy := bucketPolicyDoc pm.bucketName dist.arn
    match o.putBucketPolicy pm.bucketName policy with
    | .error e => (.error ("failed to set bucket policy: " ++ e),
        [.getDistribution distributionID, .putBucketPolicy pm.bucketName policy])
    | .ok _ => (.ok (),
        [.getDistribution distributionID, .putBucketPolicy pm.bucketName policy])

/-- deploy.go lines 353-372 `invalidateCloudFrontCache`: one invalidation for
the path `/*`; the time-derived caller reference is not modelled. -/
def invalidateCloudFrontCache (_pm : PreviewManager) (o : Oracle)
    (distributionID : String) : Res Unit × List Call :=
  match o.createInvalidation distributionID with
  | .error e => (.error ("failed to create invalidation: " ++ e),
      [.createInvalidation distributionID "/*"])
  | .ok _ => (.ok (), [.createInvalidation distributionID "/*"])

/-- Go `strings.Split` for a one-character separator, on character lists. -/
def splitChar (sep : Char) : List Char → List (List Char)
  | [] => [[]]
  | c :: cs =>
    let r := splitChar sep cs
    if c = sep then [] :: r
    else
      match r with
      | [] => [[c]]
      | h :: t => (c :: h) :: t

/-- deploy.go lines 419-434 `getHostedZoneID`: list hosted zones by name; an
empty listing is an error; otherwise return the last `/`-separated segment of
the first listed zone id (`strings.Split` never yields an empty slice, so the
default of `getLastD` is unreachable). -/
def getHostedZoneID (pm : PreviewManager) (o : Oracle) : Res String × List Call :=
  match o.listHostedZonesByName pm.cfg.baseDomain with
  | .error e => (.error ("failed to list hosted zones: " ++ e),
      [.listHostedZonesByName pm.cfg.baseDomain])
  | .ok [] => (.error ("no hosted zone found for domain: " ++ pm.cfg.baseDomain),
      [.listHostedZonesByName pm.cfg.baseDomain])
  | .ok (z :: _) =>
    (.ok (String.mk ((splitChar '/' z.id.data).getLastD [])),
      [.listHostedZonesByName pm.cfg.baseDomain])

/-- deploy.go lines 374-417 `updateRoute53`: resolve the zone, fetch the
distribution for its edge domain, then upsert the CNAME. -/
def updateRoute53 (pm : PreviewManager) (o : Oracle) (distributionID : String) :
    Res Unit × List Call :=
  match getHostedZoneID pm o with
  | (.error e, t) => (.error e, t)
  | (.ok zoneID, t) =>
    match o.getDistribution distributionID with
    | .error e => (.error ("failed to get distribution: " ++ e),
        t ++ [.getDistribution distributionID])
    | .ok dist =>
      match o.upsertRecord zoneID pm.fullDomain dist.domainName with
      | .error e => (.error ("failed to update DNS record: " ++ e),
          t ++ [.getDistribution distributionID,
                .upsertRecord zoneID pm.fullDomain dist.domainName])
      | .ok _ => (.ok (),
          t ++ [.getDistribution distributionID,
                .upsertRecord zoneID pm.fullDomain dist.domainName])

/-- The deploy comment body of deploy.go lines 445-450. -/
def deployCommentBody (pm : PreviewManager) : String :=
  "## Preview Environment Deployed Successfully! 🚀\n\nYour preview environment is now available at:\n**https://" ++
  pm.fullDomain ++
  "**\n\nNote: Initial deployment may take 3-5 minutes for CloudFront to propagate globally."

/-- deploy.go lines 436-463 `postGitHubComment`: skipped when the client is
`nil`, otherwise one comment-creation call. -/
def postGitHubComment (pm : PreviewManager) (o : Oracle) : Res Unit × List Call :=
  if o.githubNil then (.ok (), [])
  else
    match o.createComment (deployCommentBody pm) with
    | .error e => (.error ("failed to create comment: " ++ e),
        [.createComment pm.cfg.repoOwner pm.cfg.repoName pm.cfg.prNumber
          (deployCommentBody pm)])
    | .ok _ => (.ok (),
        [.createComment pm.cfg.repoOwner pm.cfg.repoName pm.cfg.prNumber
          (deployCommentBody pm)])

/-- deploy.go lines 21-59 `Deploy`: the eight steps in order, each failure
wrapped with its step name and aborting the run, except that a notification
failure is only logged (the run still returns `nil`). -/
def Deploy (pm : PreviewManager) (o : Oracle) : Res Unit × List Call :=
  match createS3Bucket pm o with
  | (.error e, t) => (.error ("failed to create S3 bucket: " ++ e), t)
  | (.ok _, t1) =>
  match syncFilesToS3 pm o with
  | (.error e, t) => (.error ("failed to sync files to S3: " ++ e), t1 ++ t)
  | (.ok _, t2) =>
  match getOrCreateOAC pm o with
  | (.error e, t) => (.error ("failed to manage OAC: " ++ e), t1 ++ t2 ++ t)
  | (.ok oacID, t3) =>
  match getOrCreateCloudFrontDistribution pm o oacID with
  | (.error e, t) =>
      (.error ("failed to manage CloudFront distribution: " ++ e), t1 ++ t2 ++ t3 ++ t)
  | (.ok distributionID, t4) =>
  match setBucketPolicyForOAC pm o distributionID with
  | (.error e, t) => (.error ("failed to set bucket policy: " ++ e),
      t1 ++ t2 ++ t3 ++ t4 ++ t)
  | (.ok _, t5) =>
  match invalidateCloudFrontCache pm o distributionID with
  | (.error e, t) => (.error ("failed to invalidate CloudFront cache: " ++ e),
      t1 ++ t2 ++ t3 ++ t4 ++ t5 ++ t)
  | (.ok _, t6) =>
  match updateRoute53 pm o distributionID with
  | (.error e, t) => (.error ("failed to update Route53: " ++ e),
      t1 ++ t2 ++ t3 ++ t4 ++ t5 ++ t6 ++ t)
  | (.ok _, t7) =>
    (.ok (), t1 ++ t2 ++ t3 ++ t4 ++ t5 ++ t6 ++ t7 ++ (postGitHubComment pm o).2)

/-! ## Cleanup-side operations (cleanup.go) -/

/-- cleanup.go lines 81-98, the tail of `deleteCloudFrontDistribution`:
re-fetch the config (second `GetDistributionConfig` of the run, occurrence
index 1) for a fresh `ETag`, then delete with that token.  `prev` is the
trace accumulated by the earlier part of the function. -/
def deleteDistributionAfterDisable (o : Oracle) (distributionID : String)
    (prev : List Call) : Res Unit × List Call :=
  match o.getDistributionConfig 1 with
  | .error e => (.error ("failed to get updated distribution config: " ++ e),
      prev ++ [.getDistributionConfig distributionID])
  | .ok cfg1 =>
    match o.deleteDistribution cfg1.etag with
    | .error e => (.error ("failed to delete distribution: " ++ e),
        prev ++ [.getDistributionConfig distributionID,
                 .deleteDistribution distributionID cfg1.etag])
    | .ok _ => (.ok (),
        prev ++ [.getDistributionConfig distributionID,
                 .deleteDistribution distributionID cfg1.etag])

/-- cleanup.go lines 48-99 `deleteCloudFrontDistribution`: fetch the config;
if enabled, submit an update with `Enabled = false` under the fetched `ETag`
and block on the deployed-state waiter (bounded at 20 minutes, any timeout or
failure being fatal); then re-fetch and delete
(`deleteDistributionAfterDisable`). -/
def deleteCloudFrontDistribution (o : Oracle) (distributionID : String) :
    Res Unit × List Call :=
  match o.getDistributionConfig 0 with
  | .error e => (.error ("failed to get distribution config: " ++ e),
      [.getDistributionConfig distributionID])
  | .ok cfg0 =>
    if cfg0.enabled then
      match o.updateDistribution false cfg0.etag with
      | .error e => (.error ("failed to disable distribution: " ++ e),
          [.getDistributionConfig distributionID,
           .updateDistribution distributionID false cfg0.etag])
      | .ok _ =>
        match o.waitDistributionDeployed with
        | .error e => (.error ("failed waiting for distribution to be disabled: " ++ e),
            [.getDistributionConfig distributionID,
             .updateDistribution distributionID false cfg0.etag,
             .waitDistributionDeployed distributionID])
        | .ok _ =>
          deleteDistributionAfterDisable o distributionID
            [.getDistributionConfig distributionID,
             .updateDistribution distributionID false cfg0.etag,
             .waitDistributionDeployed distributionID]
    else
      deleteDistributionAfterDisable o distributionID
        [.getDistributionConfig distributionID]

/-- cleanup.go lines 101-147 `deleteRoute53Record`: resolve the zone, list at
most one record starting at the full domain, and only when the first returned
record is named exactly `fullDomain ++ "."` submit a delete with that record
verbatim; an empty or non-matching read returns success with no delete. -/
def deleteRoute53Record (pm : PreviewManager) (o : Oracle) : Res Unit × List Call :=
  match getHostedZoneID pm o with
  | (.error e, t) => (.error e, t)
  | (.ok hostedZoneID, t) =>
    match o.listResourceRecordSets hostedZoneID pm.fullDomain with
    | .error e => (.error ("failed to list records: " ++ e),
        t ++ [.listResourceRecordSets hostedZoneID pm.fullDomain])
    | .ok [] => (.ok (), t ++ [.listResourceRecordSets hostedZoneID pm.fullDomain])
    | .ok (recordSet :: _) =>
      if recordSet.name ≠ pm.fullDomain ++ "." then
        (.ok (), t ++ [.listResourceRecordSets hostedZoneID pm.fullDomain])
      else
        match o.deleteRecord hostedZoneID recordSet with
        | .error e => (.error ("failed to delete DNS record: " ++ e),
            t ++ [.listResourceRecordSets hostedZoneID pm.fullDomain,
                  .deleteRecord hostedZoneID recordSet])
        | .ok _ => (.ok (),
            t ++ [.listResourceRecordSets hostedZoneID pm.fullDomain,
                  .deleteRecord hostedZoneID recordSet])

/-- The object-deletion paginator loop of cleanup.go lines 161-189: each page
is listed; a page failure aborts; a non-empty page is deleted in one
`DeleteObjects` call whose failure aborts. -/
def deleteAllObjects (pm : PreviewManager) (o : Oracle) :
    List (Res (List String)) → Res Unit × List Call
  | [] => (.ok (), [])
  | page :: rest =>
    match page with
    | .error e => (.error ("failed to list objects: " ++ e),
        [.listObjectsPage pm.bucketName])
    | .ok keys =>
      if keys.isEmpty then
        let r := deleteAllObjects pm o rest
        (r.1, .listObjectsPage pm.bucketName :: r.2)
      else
        match o.deleteObjects keys with
        | .error e => (.error ("failed to delete objects: " ++ e),
            [.listObjectsPage pm.bucketName, .deleteObjects pm.bucketName keys])
        | .ok _ =>
          let r := deleteAllObjects pm o rest
          (r.1, .listObjectsPage pm.bucketName
                :: .deleteObjects pm.bucketName keys :: r.2)

/-- cleanup.go lines 149-200 `deleteS3Bucket`: any `HeadBucket` error is
taken to mean the bucket does not exist and the step succeeds at once;
otherwise every page of objects is deleted and then the bucket itself. -/
def deleteS3Bucket (pm : PreviewManager) (o : Oracle) : Res Unit × List Call :=
  match o.headBucket pm.bucketName with
  | .error _ => (.ok (), [.headBucket pm.bucketName])
  | .ok _ =>
    match deleteAllObjects pm o o.listObjectsPages with
    | (.error e, t) => (.error e, .headBucket pm.bucketName :: t)
    | (.ok _, t) =>
      match o.deleteBucket pm.bucketName with
      | .error e => (.error ("failed to delete bucket: " ++ e),
          .headBucket pm.bucketName :: (t ++ [.deleteBucket pm.bucketName]))
      | .ok _ => (.ok (),
          .headBucket pm.bucketName :: (t ++ [.deleteBucket pm.bucketName]))

/-- The cleanup comment body of cleanup.go lines 210-217. -/
def cleanupCommentBody (pm : PreviewManager) : String :=
  "## Preview Environment Cleanup Complete 🧹\n\nThe preview environment for PR #" ++
  toString pm.cfg.prNumber ++
  " has been successfully cleaned up.\n\nAll resources have been removed:\n- CloudFront distribution\n- Route53 DNS records\n- S3 bucket and contents"

/-- cleanup.go lines 202-230 `postCleanupGitHubComment`. -/
def postCleanupGitHubComment (pm : PreviewManager) (o : Oracle) :
    Res Unit × List Call :=
  if o.githubNil then (.ok (), [])
  else
    match o.createComment (cleanupCommentBody pm) with
    | .error e => (.error ("failed to create comment: " ++ e),
        [.createComment pm.cfg.repoOwner pm.cfg.repoName pm.cfg.prNumber
          (cleanupCommentBody pm)])
    | .ok _ => (.ok (),
        [.createComment pm.cfg.repoOwner pm.cfg.repoName pm.cfg.prNumber
          (cleanupCommentBody pm)])

/-- cleanup.go lines 17-46 `Cleanup`: find the distribution (failure is
fatal); tear it down when present (failure is fatal); delete the DNS record
(failure only logged); delete the bucket (failure is fatal); post the comment
(failure only logged). -/
def Cleanup (pm : PreviewManager) (o : Oracle) : Res Unit × List Call :=
  match findCloudFrontDistribution pm o with
  | (.error e, t) => (.error ("failed to find distribution: " ++ e), t)
  | (.ok distributionID, t1) =>
    let r2 :=
      if distributionID ≠ "" then deleteCloudFrontDistribution o distributionID
      else (.ok (), [])
    match r2 with
    | (.error e, t2) =>
        (.error ("failed to delete CloudFront distribution: " ++ e), t1 ++ t2)
    | (.ok _, t2) =>
      let t3 := (deleteRoute53Record pm o).2
      match deleteS3Bucket pm o with
      | (.error e, t4) => (.error ("failed to delete S3 bucket: " ++ e),
          t1 ++ t2 ++ t3 ++ t4)
      | (.ok _, t4) =>
        (.ok (), t1 ++ t2 ++ t3 ++ t4 ++ (postCleanupGitHubComment pm o).2)

/-! ## Concrete executions used as witnesses -/

/-- A fixed example configuration (the end-to-end scenario of the spec:
key 42, app "site", base domain "example.test"). -/
def exCfg : Config :=
  { prNumber := 42, appName := "site", region := "us-east-1",
    baseDomain := "example.test", certificateARN := "arn:aws:acm:::cert",
    sourcePath := "./dist", repoOwner := "owner", repoName := "repo" }

/-- The manager derived from `exCfg`. -/
def exPM : PreviewManager := mkPreviewManager exCfg

/-- An oracle in which every provider call fails and the environment is
empty; individual fields are overridden per scenario. -/
def oracleDown : Oracle :=
  { headBucket := fun _ => .error "down"
    createBucket := fun _ => .error "down"
    walkItems := []
    relSlash := fun _ => .error "down"
    putObject := fun _ _ _ => .error "down"
    listOriginAccessControls := .error "down"
    createOriginAccessControl := fun _ => .error "down"
    listDistributions := .error "down"
    createDistribution := fun _ => .error "down"
    getDistribution := fun _ => .error "down"
    putBucketPolicy := fun _ _ => .error "down"
    createInvalidation := fun _ => .error "down"
    listHostedZonesByName := fun _ => .error "down"
    upsertRecord := fun _ _ _ => .error "down"
    deleteRecord := fun _ _ => .error "down"
    getDistributionConfig := fun _ => .error "down"
    updateDistribution := fun _ _ => .error "down"
    waitDistributionDeployed := .error "down"
    deleteDistribution := fun _ => .error "down"
    listResourceRecordSets := fun _ _ => .error "down"
    listObjectsPages := []
    deleteObjects := fun _ => .error "down"
    deleteBucket := fun _ => .error "down"
    createComment := fun _ => .error "down"
    githubNil := true }

/-- An oracle describing a fully deployed environment for `exPM` in which
every provider call succeeds: the bucket exists, the OAC named
`OAC-pr-42-site` exists, a distribution with alias
`pr-42-site.example.test` exists and is enabled, the hosted zone and the
CNAME record exist. -/
def oracleDeployed : Oracle :=
  { headBucket := fun _ => .ok ()
    createBucket := fun _ => .ok ()
    walkItems := [.file "./dist/index.html" (.ok "<h1>hi</h1>")]
    relSlash := fun _ => .ok "index.html"
    putObject := fun _ _ _ => .ok ()
    listOriginAccessControls := .ok [{ name := "OAC-pr-42-site", id := "OAC1" }]
    createOriginAccessControl := fun _ => .ok "OAC2"
    listDistributions := .ok [{ id := "DIST1", aliases := ["pr-42-site.example.test"] }]
    createDistribution := fun _ => .ok "DIST2"
    getDistribution := fun _ => .ok { arn := "arn:aws:cloudfront::1:distribution/DIST1",
                                      domainName := "d111.cloudfront.net" }
    putBucketPolicy := fun _ _ => .ok ()
    createInvalidation := fun _ => .ok ()
    listHostedZonesByName := fun _ => .ok [{ name := "example.test.", id := "/hostedzone/Z123" }]
    upsertRecord := fun _ _ _ => .ok ()
    deleteRecord := fun _ _ => .ok ()
    getDistributionConfig := fun n =>
      if n = 0 then .ok { enabled := true, etag := "E1" }
      else .ok { enabled := false, etag := "E2" }
    updateDistribution := fun _ _ => .ok ()
    waitDistributionDeployed := .ok ()
    deleteDistribution := fun _ => .ok ()
    listResourceRecordSets := fun _ _ =>
      .ok [{ name := "pr-42-site.example.test.", value := "d111.cloudfront.net" }]
    listObjectsPages := [.ok ["index.html"]]
    deleteObjects := fun _ => .ok ()
    deleteBucket := fun _ => .ok ()
    createComment := fun _ => .ok ()
    githubNil := false }

/-! ## C9: content-type inference -/

/-- C9: content-type inference is an exact table lookup keyed by the
lowercased file extension (Go `strings.ToLower`, Unicode simple case
mapping): a `.html` extension in any letter case yields `text/html`, `.js`
yields `application/javascript`, every lowercased extension present in the
table yields its table entry, and any extension missing from the fixed
table yields `application/octet-stream`. -/
theorem getContentType_table_lookup (fn : String) :
    (toLowerString (filepathExt fn) = ".html" → getContentType fn = "text/html") ∧
    (toLowerString (filepathExt fn) = ".js" →
      getContentType fn = "application/javascript") ∧
    (∀ ct, contentTypes.lookup (toLowerString (filepathExt fn)) = some ct →
      getContentType fn = ct) ∧
    (contentTypes.lookup (toLowerString (filepathExt fn)) = none →
      getContentType fn = "application/octet-stream") := by
  refine ⟨fun h => ?_, fun h => ?_, fun ct h => ?_, fun h => ?_⟩ <;>
    unfold getContentType <;> rw [h] <;> rfl

/-- Witness for C9 at concrete filenames: a mixed-case extension, a plain
known one, a non-ASCII upper-case extension (U+0130 lowers to ASCII `i`
under the Unicode simple case mapping, so `.İCO` hits the `.ico` table
entry), and an unknown extension. -/
theorem getContentType_table_lookup_witness :
    getContentType "index.HtMl" = "text/html" ∧
    getContentType "static/app.js" = "application/javascript" ∧
    getContentType "a.İCO" = "image/x-icon" ∧
    getContentType "blob.unknownext" = "application/octet-stream" :=
  ⟨(getContentType_table_lookup "index.HtMl").1 (by decide),
   (getContentType_table_lookup "static/app.js").2.1 (by decide),
   (getContentType_table_lookup "a.İCO").2.2.1 "image/x-icon" (by decide),
   (getContentType_table_lookup "blob.unknownext").2.2.2 (by decide)⟩

/-! ## C8: identity is a pure, collision-free function of (key, app)

The helper lemmas establish that the decimal rendering used by Go `%d`
(which coincides with `toString : Int → String`) consists of digit
characters and is injective, so the single `-` separators in
`pr-{key}-{app}` can be located unambiguously. -/

/-- Every character emitted by `Nat.digitChar` on a remainder below ten is a
decimal digit. -/
theorem digitChar_isDigit : ∀ m : Nat, m < 10 → (Nat.digitChar m).isDigit = true := by
  decide

/-- Characters produced by `Nat.toDigitsCore` come from the accumulator or
are decimal digits. -/
theorem toDigitsCore_mem (f : Nat) :
    ∀ (n : Nat) (acc : List Char) (c : Char),
      c ∈ Nat.toDigitsCore 10 f n acc → c ∈ acc ∨ c.isDigit = true := by
  induction f with
  | zero => intro n acc c h; exact .inl h
  | succ f ih =>
    intro n acc c h
    rw [Nat.toDigitsCore] at h
    by_cases hdiv : n / 10 = 0
    · rw [if_pos hdiv] at h
      rcases List.mem_cons.mp h with h1 | h2
      · exact .inr (h1 ▸ digitChar_isDigit _ (Nat.mod_lt _ (by norm_num)))
      · exact .inl h2
    · rw [if_neg hdiv] at h
      rcases ih (n / 10) (Nat.digitChar (n % 10) :: acc) c h with h1 | h2
      · rcases List.mem_cons.mp h1 with h3 | h4
        · exact .inr (h3 ▸ digitChar_isDigit _ (Nat.mod_lt _ (by norm_num)))
        · exact .inl h4
      · exact .inr h2

/-- `Nat.toDigitsCore` never returns an empty list when the accumulator is
non-empty. -/
theorem toDigitsCore_ne_nil_of_acc (f : Nat) :
    ∀ (n : Nat) (acc : List Char), acc ≠ [] → Nat.toDigitsCore 10 f n acc ≠ [] := by
  induction f with
  | zero => intro n acc h; simpa [Nat.toDigitsCore] using h
  | succ f ih =>
    intro n acc h
    rw [Nat.toDigitsCore]
    by_cases hdiv : n / 10 = 0
    · simp [hdiv]
    · rw [if_neg hdiv]
      exact ih (n / 10) (Nat.digitChar (n % 10) :: acc) (by simp)

/-- The digit list of a natural number is never empty. -/
theorem toDigits_ne_nil (n : Nat) : Nat.toDigits 10 n ≠ [] := by
  rw [Nat.toDigits, Nat.toDigitsCore]
  by_cases hdiv : n / 10 = 0
  · simp [hdiv]
  · rw [if_neg hdiv]
    exact toDigitsCore_ne_nil_of_acc _ _ _ (by simp)

/-- The decimal value of a digit-character list, most significant first. -/
def digitsVal : List Char → Nat
  | [] => 0
  | c :: cs => (c.toNat - '0'.toNat) * 10 ^ cs.length + digitsVal cs

/-- `Nat.digitChar` round-trips through its character value below ten. -/
theorem digitChar_val : ∀ m : Nat, m < 10 → (Nat.digitChar m).toNat - '0'.toNat = m := by
  decide

/-- With sufficient fuel, `Nat.toDigitsCore` prepends exactly the decimal
digits of `n` to the accumulator, as measured by `digitsVal`. -/
theorem toDigitsCore_val (f : Nat) :
    ∀ (n : Nat) (acc : List Char), n < f →
      digitsVal (Nat.toDigitsCore 10 f n acc) =
        n * 10 ^ acc.length + digitsVal acc := by
  induction f with
  | zero => intro n acc h; omega
  | succ f ih =>
    intro n acc h
    rw [Nat.toDigitsCore]
    by_cases hdiv : n / 10 = 0
    · rw [if_pos hdiv]
      have hn : n < 10 := (Nat.div_eq_zero_iff (by norm_num)).mp hdiv
      have hv : (Nat.digitChar (n % 10)).toNat - '0'.toNat = n := by
        rw [Nat.mod_eq_of_lt hn]; exact digitChar_val n hn
      simp only [digitsVal, hv]
    · rw [if_neg hdiv]
      have hn0 : 0 < n := by
        rcases Nat.eq_zero_or_pos n with h0 | h0
        · exact absurd (by simp [h0]) hdiv
        · exact h0
      have hlt : n / 10 < f :=
        Nat.lt_of_lt_of_le (Nat.div_lt_self hn0 (by norm_num)) (Nat.lt_succ_iff.mp h)
      rw [ih (n / 10) (Nat.digitChar (n % 10) :: acc) hlt]
      have hv : (Nat.digitChar (n % 10)).toNat - '0'.toNat = n % 10 :=
        digitChar_val (n % 10) (Nat.mod_lt _ (by norm_num))
      have hdm : 10 * (n / 10) + n % 10 = n := Nat.div_add_mod n 10
      simp only [digitsVal, hv, List.length_cons, pow_succ]
      calc n / 10 * (10 ^ acc.length * 10) + (n % 10 * 10 ^ acc.length + digitsVal acc)
          = (10 * (n / 10) + n % 10) * 10 ^ acc.length + digitsVal acc := by ring
        _ = n * 10 ^ acc.length + digitsVal acc := by rw [hdm]

/-- The decimal digit list determines the number. -/
theorem toDigits_injective {m n : Nat} (h : Nat.toDigits 10 m = Nat.toDigits 10 n) :
    m = n := by
  have hm := toDigitsCore_val (m + 1) m [] (Nat.lt_succ_self m)
  have hn := toDigitsCore_val (n + 1) n [] (Nat.lt_succ_self n)
  rw [Nat.toDigits] at h
  rw [h, Nat.toDigits, hn] at hm
  simp only [List.length_nil, pow_zero, mul_one, digitsVal] at hm
  omega

/-- No character of `Nat.repr` is the separator `-`. -/
theorem repr_no_dash (n : Nat) : ∀ c ∈ (Nat.repr n).data, c ≠ '-' := by
  intro c hc
  have hd : c.isDigit = true := by
    rcases toDigitsCore_mem (n + 1) n [] c hc with h | h
    · simp at h
    · exact h
  intro hdash
  rw [hdash] at hd
  simp [Char.isDigit] at hd

/-- `Nat.repr` data is never empty. -/
theorem repr_data_ne_nil (n : Nat) : (Nat.repr n).data ≠ [] :=
  toDigits_ne_nil n

/-- Splitting on a separator absent from the two leading blocks is
unambiguous. -/
theorem append_dash_inj :
    ∀ (xs ys as bs : List Char),
      (∀ c ∈ xs, c ≠ '-') → (∀ c ∈ ys, c ≠ '-') →
      xs ++ '-' :: as = ys ++ '-' :: bs → xs = ys ∧ as = bs := by
  intro xs
  induction xs with
  | nil =>
    intro ys as bs _ hy h
    cases ys with
    | nil => simpa using h
    | cons y ys =>
      simp only [List.nil_append, List.cons_append, List.cons.injEq] at h
      exact absurd h.1.symm (hy y (List.mem_cons_self y ys))
  | cons x xs ih =>
    intro ys as bs hx hy h
    cases ys with
    | nil =>
      simp only [List.cons_append, List.nil_append, List.cons.injEq] at h
      exact absurd h.1 (hx x (List.mem_cons_self x xs))
    | cons y ys =>
      simp only [List.cons_append, List.cons.injEq] at h
      obtain ⟨rfl, htl⟩ := h
      obtain ⟨h1, h2⟩ := ih ys as bs
        (fun c hc => hx c (List.mem_cons_of_mem x hc))
        (fun c hc => hy c (List.mem_cons_of_mem x hc)) htl
      exact ⟨by rw [h1], h2⟩

/-- `Nat.repr` is injective on data lists. -/
theorem repr_data_inj {m n : Nat} (h : (Nat.repr m).data = (Nat.repr n).data) :
    m = n :=
  toDigits_injective h

/-- The Go format `fmt.Sprintf("pr-%d-%s", key, app)` is collision-free:
distinct `(key, app)` pairs give distinct strings. -/
theorem key_app_inj (k1 k2 : Int) (a1 a2 : String)
    (h : "pr-" ++ toString k1 ++ "-" ++ a1 = "pr-" ++ toString k2 ++ "-" ++ a2) :
    k1 = k2 ∧ a1 = a2 := by
  have hd := congrArg String.data h
  simp only [String.data_append] at hd
  have hd' : (toString k1).data ++ '-' :: a1.data =
      (toString k2).data ++ '-' :: a2.data := by
    simpa [List.append_assoc] using hd
  cases k1 with
  | ofNat m1 =>
    cases k2 with
    | ofNat m2 =>
      have e1 : (toString (Int.ofNat m1)).data = (Nat.repr m1).data := rfl
      have e2 : (toString (Int.ofNat m2)).data = (Nat.repr m2).data := rfl
      rw [e1, e2] at hd'
      obtain ⟨hk, ha⟩ :=
        append_dash_inj _ _ _ _ (repr_no_dash m1) (repr_no_dash m2) hd'
      exact ⟨by rw [repr_data_inj hk], String.ext ha⟩
    | negSucc m2 =>
      have e1 : (toString (Int.ofNat m1)).data = (Nat.repr m1).data := rfl
      have e2 : (toString (Int.negSucc m2)).data =
          '-' :: (Nat.repr (m2 + 1)).data := rfl
      rw [e1, e2] at hd'
      exfalso
      cases hrepr : (Nat.repr m1).data with
      | nil => exact repr_data_ne_nil m1 hrepr
      | cons c cs =>
        rw [hrepr] at hd'
        simp only [List.cons_append, List.cons.injEq] at hd'
        exact repr_no_dash m1 c (by rw [hrepr]; exact List.mem_cons_self c cs) hd'.1
  | negSucc m1 =>
    cases k2 with
    | ofNat m2 =>
      have e1 : (toString (Int.negSucc m1)).data =
          '-' :: (Nat.repr (m1 + 1)).data := rfl
      have e2 : (toString (Int.ofNat m2)).data = (Nat.repr m2).data := rfl
      rw [e1, e2] at hd'
      exfalso
      cases hrepr : (Nat.repr m2).data with
      | nil => exact repr_data_ne_nil m2 hrepr
      | cons c cs =>
        rw [hrepr] at hd'
        simp only [List.cons_append, List.cons.injEq] at hd'
        exact repr_no_dash m2 c (by rw [hrepr]; exact List.mem_cons_self c cs) hd'.1.symm
    | negSucc m2 =>
      have e1 : (toString (Int.negSucc m1)).data =
          '-' :: (Nat.repr (m1 + 1)).data := rfl
      have e2 : (toString (Int.negSucc m2)).data =
          '-' :: (Nat.repr (m2 + 1)).data := rfl
      rw [e1, e2] at hd'
      simp only [List.cons_append, List.cons.injEq, true_and] at hd'
      obtain ⟨hk, ha⟩ := append_dash_inj _ _ _ _
        (repr_no_dash (m1 + 1)) (repr_no_dash (m2 + 1)) hd'
      have hsucc : m1 + 1 = m2 + 1 := repr_data_inj hk
      have hm : m1 = m2 := by omega
      exact ⟨by rw [hm], String.ext ha⟩

/-- C8: environment identity is a pure function of the key and the app name:
`bucketName = "pr-{key}-{app}"`, `fullDomain = "{bucketName}.{baseDomain}"`,
and distinct `(key, app)` inputs never collide on the bucket name. -/
theorem identity_pure_and_injective (c1 c2 : Config) :
    (mkPreviewManager c1).bucketName =
      "pr-" ++ toString c1.prNumber ++ "-" ++ c1.appName ∧
    (mkPreviewManager c1).fullDomain =
      (mkPreviewManager c1).bucketName ++ "." ++ c1.baseDomain ∧
    ((mkPreviewManager c1).bucketName = (mkPreviewManager c2).bucketName →
      c1.prNumber = c2.prNumber ∧ c1.appName = c2.appName) := by
  refine ⟨rfl, rfl, fun h => ?_⟩
  exact key_app_inj c1.prNumber c2.prNumber c1.appName c2.appName h

/-- Witness for C8 at the example configuration. -/
theorem identity_pure_and_injective_witness :
    (mkPreviewManager exCfg).bucketName = "pr-42-site" ∧
    exCfg.prNumber = exCfg.prNumber ∧ exCfg.appName = exCfg.appName :=
  ⟨by decide, (identity_pure_and_injective exCfg exCfg).2.2 rfl⟩

/-! ## C1: distribution teardown issues delete only after a disabled state -/

/-- C1: in `deleteCloudFrontDistribution`, a delete is issued only in
executions where either the fetched config was already disabled, or an
update setting `enabled = false` was submitted under the fetched version
token and the bounded wait completed; in both cases the config and a fresh
version token are re-fetched first, the delete carries that fresh token, and
the delete is the final call of the trace. -/
theorem teardown_delete_only_after_disable (o : Oracle) (did etag : String)
    (h : Call.deleteDistribution did etag ∈ (deleteCloudFrontDistribution o did).2) :
    ∃ c0 c1 : DistConfigOut,
      o.getDistributionConfig 0 = .ok c0 ∧
      o.getDistributionConfig 1 = .ok c1 ∧
      etag = c1.etag ∧
      ((c0.enabled = false ∧
        (deleteCloudFrontDistribution o did).2 =
          [.getDistributionConfig did, .getDistributionConfig did,
           .deleteDistribution did c1.etag]) ∨
       (c0.enabled = true ∧
        o.updateDistribution false c0.etag = .ok () ∧
        o.waitDistributionDeployed = .ok () ∧
        (deleteCloudFrontDistribution o did).2 =
          [.getDistributionConfig did,
           .updateDistribution did false c0.etag,
           .waitDistributionDeployed did,
           .getDistributionConfig did,
           .deleteDistribution did c1.etag])) := by
  cases hg0 : o.getDistributionConfig 0 with
  | error e =>
    have htr : (deleteCloudFrontDistribution o did).2 =
        [.getDistributionConfig did] := by
      simp [deleteCloudFrontDistribution, hg0]
    rw [htr] at h; simp at h
  | ok c0 =>
    by_cases hen : c0.enabled = true
    · cases hup : o.updateDistribution false c0.etag with
      | error e =>
        have htr : (deleteCloudFrontDistribution o did).2 =
            [.getDistributionConfig did, .updateDistribution did false c0.etag] := by
          simp [deleteCloudFrontDistribution, hg0, hen, hup]
        rw [htr] at h; simp at h
      | ok u =>
        cases u
        cases hw : o.waitDistributionDeployed with
        | error e =>
          have htr : (deleteCloudFrontDistribution o did).2 =
              [.getDistributionConfig did, .updateDistribution did false c0.etag,
               .waitDistributionDeployed did] := by
            simp [deleteCloudFrontDistribution, hg0, hen, hup, hw]
          rw [htr] at h; simp at h
        | ok w =>
          cases w
          cases hg1 : o.getDistributionConfig 1 with
          | error e =>
            have htr : (deleteCloudFrontDistribution o did).2 =
                [.getDistributionConfig did, .updateDistribution did false c0.etag,
                 .waitDistributionDeployed did, .getDistributionConfig did] := by
              simp [deleteCloudFrontDistribution, deleteDistributionAfterDisable,
                hg0, hen, hup, hw, hg1]
            rw [htr] at h; simp at h
          | ok c1 =>
            have htr : (deleteCloudFrontDistribution o did).2 =
                [.getDistributionConfig did, .updateDistribution did false c0.etag,
                 .waitDistributionDeployed did, .getDistributionConfig did,
                 .deleteDistribution did c1.etag] := by
              cases hdel : o.deleteDistribution c1.etag <;>
                simp [deleteCloudFrontDistribution, deleteDistributionAfterDisable,
                  hg0, hen, hup, hw, hg1, hdel]
            rw [htr] at h
            simp at h
            exact ⟨c0, c1, rfl, rfl, h, .inr ⟨hen, hup, rfl, htr⟩⟩
    · have hen' : c0.enabled = false := by simpa using hen
      cases hg1 : o.getDistributionConfig 1 with
      | error e =>
        have htr : (deleteCloudFrontDistribution o did).2 =
            [.getDistributionConfig did, .getDistributionConfig did] := by
          simp [deleteCloudFrontDistribution, deleteDistributionAfterDisable,
            hg0, hen', hg1]
        rw [htr] at h; simp at h
      | ok c1 =>
        have htr : (deleteCloudFrontDistribution o did).2 =
            [.getDistributionConfig did, .getDistributionConfig did,
             .deleteDistribution did c1.etag] := by
          cases hdel : o.deleteDistribution c1.etag <;>
            simp [deleteCloudFrontDistribution, deleteDistributionAfterDisable,
              hg0, hen', hg1, hdel]
        rw [htr] at h
        simp at h
        exact ⟨c0, c1, rfl, rfl, h, .inl ⟨hen', htr⟩⟩

/-- Witness for C1: on the fully deployed oracle, a delete is issued for
`DIST1` under the re-fetched token `E2`, and the guarantee of the theorem
holds there. -/
theorem teardown_delete_only_after_disable_witness :
    Call.deleteDistribution "DIST1" "E2" ∈
      (deleteCloudFrontDistribution oracleDeployed "DIST1").2 ∧
    ∃ c0 c1 : DistConfigOut,
      oracleDeployed.getDistributionConfig 0 = .ok c0 ∧
      oracleDeployed.getDistributionConfig 1 = .ok c1 ∧
      "E2" = c1.etag ∧
      ((c0.enabled = false ∧
        (deleteCloudFrontDistribution oracleDeployed "DIST1").2 =
          [.getDistributionConfig "DIST1", .getDistributionConfig "DIST1",
           .deleteDistribution "DIST1" c1.etag]) ∨
       (c0.enabled = true ∧
        oracleDeployed.updateDistribution false c0.etag = .ok () ∧
        oracleDeployed.waitDistributionDeployed = .ok () ∧
        (deleteCloudFrontDistribution oracleDeployed "DIST1").2 =
          [.getDistributionConfig "DIST1",
           .updateDistribution "DIST1" false c0.etag,
           .waitDistributionDeployed "DIST1",
           .getDistributionConfig "DIST1",
           .deleteDistribution "DIST1" c1.etag])) :=
  ⟨by decide, teardown_delete_only_after_disable oracleDeployed "DIST1" "E2" (by decide)⟩

/-! ## C2: a distribution-list failure during Cleanup is fatal -/

/-- Counterexample to C2: when the distribution listing fails, `Cleanup`
terminates at once with a wrapped fatal error, and no later cleanup step
(DNS, bucket, comment) is ever reached — the trace holds only the listing
call.  The claim said the failure is logged and the run continues. -/
theorem cleanup_list_failure_cex :
    (Cleanup exPM oracleDown).1 =
      .error "failed to find distribution: failed to list distributions: down" ∧
    (Cleanup exPM oracleDown).2 = [Call.listDistributions] := by decide

/-- C2 as amended: a failure of the distribution-list lookup terminates
`Cleanup` with a fatal error wrapped as `failed to find distribution`; the
remaining cleanup steps are not executed. -/
theorem cleanup_list_failure_fatal (pm : PreviewManager) (o : Oracle) (e : String)
    (h : o.listDistributions = .error e) :
    (Cleanup pm o).1 =
      .error ("failed to find distribution: failed to list distributions: " ++ e) ∧
    (Cleanup pm o).2 = [Call.listDistributions] := by
  have hf : findCloudFrontDistribution pm o =
      (.error ("failed to list distributions: " ++ e), [.listDistributions]) := by
    simp [findCloudFrontDistribution, h]
  rw [Cleanup, hf]
  exact ⟨rfl, rfl⟩

/-- Witness for the amended C2 on a concrete failing oracle. -/
theorem cleanup_list_failure_fatal_witness :
    (Cleanup exPM oracleDown).1 =
      .error ("failed to find distribution: failed to list distributions: " ++ "down") ∧
    (Cleanup exPM oracleDown).2 = [Call.listDistributions] :=
  cleanup_list_failure_fatal exPM oracleDown "down" rfl

/-! ## C3: hosted-zone resolution does not verify the zone name -/

/-- An account state holding a single hosted zone whose name is not the base
domain; the by-name listing still returns it (the provider lists zones in
name order starting at the query). -/
def oracleWrongZone : Oracle :=
  { oracleDown with
    listHostedZonesByName := fun _ =>
      .ok [{ name := "zzz.example.test.", id := "/hostedzone/Z999" }] }

/-- Counterexample to C3: with no hosted zone named `example.test` in the
account, `getHostedZoneID` does not return an error — it returns the id of
the first listed zone, whose name differs from the base domain. -/
theorem getHostedZoneID_wrong_zone_cex :
    (getHostedZoneID exPM oracleWrongZone).1 = .ok "Z999" ∧
    "zzz.example.test." ≠ exPM.cfg.baseDomain ∧
    "zzz.example.test." ≠ exPM.cfg.baseDomain ++ "." := by decide

/-- C3 as amended: `getHostedZoneID` errors exactly when the by-name listing
fails or returns no zones; on a non-empty listing it returns the last
`/`-separated segment of the first listed zone id, without checking that the
zone name equals the base domain. -/
theorem getHostedZoneID_first_zone (pm : PreviewManager) (o : Oracle) :
    (∀ e, o.listHostedZonesByName pm.cfg.baseDomain = .error e →
      (getHostedZoneID pm o).1 = .error ("failed to list hosted zones: " ++ e)) ∧
    (o.listHostedZonesByName pm.cfg.baseDomain = .ok [] →
      (getHostedZoneID pm o).1 =
        .error ("no hosted zone found for domain: " ++ pm.cfg.baseDomain)) ∧
    (∀ z zs, o.listHostedZonesByName pm.cfg.baseDomain = .ok (z :: zs) →
      (getHostedZoneID pm o).1 =
        .ok (String.mk ((splitChar '/' z.id.data).getLastD []))) := by
  refine ⟨fun e h => ?_, fun h => ?_, fun z zs h => ?_⟩ <;>
    simp [getHostedZoneID, h]

/-- Witness for the amended C3 on the deployed oracle. -/
theorem getHostedZoneID_first_zone_witness :
    (getHostedZoneID exPM oracleDeployed).1 = .ok "Z123" :=
  ((getHostedZoneID_first_zone exPM oracleDeployed).2.2
    { name := "example.test.", id := "/hostedzone/Z123" } [] rfl).trans (by decide)

/-! ## C4: DNS deletion is guarded by an exact pre-read -/

/-- An oracle whose zone exists but whose record listing fails. -/
def oracleRecordListFail : Oracle :=
  { oracleDown with
    listHostedZonesByName := fun _ =>
      .ok [{ name := "example.test.", id := "/hostedzone/Z123" }],
    listResourceRecordSets := fun _ _ => .error "throttled" }

/-- Counterexample to C4: when the record pre-read fails, the step does not
return success — it returns a wrapped error (while indeed submitting no
delete).  The claim said every case without a matching pre-read returns
success. -/
theorem deleteRoute53Record_failure_cex :
    (deleteRoute53Record exPM oracleRecordListFail).1 =
      .error "failed to list records: throttled" ∧
    (deleteRoute53Record exPM oracleRecordListFail).2 =
      [Call.listHostedZonesByName "example.test",
       Call.listResourceRecordSets "Z123" "pr-42-site.example.test"] := by decide

/-- C4 as amended: a delete change is submitted only when the pre-read
listing returned at least one record whose first record is named exactly the
environment hostname with a trailing dot; a completed pre-read with zero
records or a non-matching first record returns success without a delete; a
failing zone lookup or record listing returns an error, likewise without
submitting a delete. -/
theorem deleteRoute53Record_guarded (pm : PreviewManager) (o : Oracle) :
    (∀ z rr, Call.deleteRecord z rr ∈ (deleteRoute53Record pm o).2 →
      ∃ rest, (getHostedZoneID pm o).1 = .ok z ∧
        o.listResourceRecordSets z pm.fullDomain = .ok (rr :: rest) ∧
        rr.name = pm.fullDomain ++ ".") ∧
    (∀ zone zs, o.listHostedZonesByName pm.cfg.baseDomain = .ok (zone :: zs) →
      ((o.listResourceRecordSets (String.mk ((splitChar '/' zone.id.data).getLastD []))
          pm.fullDomain = .ok [] →
        (deleteRoute53Record pm o).1 = .ok ()) ∧
       (∀ rr rest,
         o.listResourceRecordSets (String.mk ((splitChar '/' zone.id.data).getLastD []))
           pm.fullDomain = .ok (rr :: rest) →
         rr.name ≠ pm.fullDomain ++ "." → (deleteRoute53Record pm o).1 = .ok ()) ∧
       (∀ e,
         o.listResourceRecordSets (String.mk ((splitChar '/' zone.id.data).getLastD []))
           pm.fullDomain = .error e →
         (deleteRoute53Record pm o).1 = .error ("failed to list records: " ++ e)))) ∧
    (∀ e, (getHostedZoneID pm o).1 = .error e →
      (deleteRoute53Record pm o).1 = .error e) := by
  refine ⟨?_, ?_, ?_⟩
  · intro z rr hmem
    cases hz : o.listHostedZonesByName pm.cfg.baseDomain with
    | error e =>
      rw [show (deleteRoute53Record pm o).2 =
            [Call.listHostedZonesByName pm.cfg.baseDomain] by
          simp [deleteRoute53Record, getHostedZoneID, -List.getLastD_eq_getLast?, hz]] at hmem
      simp [-List.getLastD_eq_getLast?] at hmem
    | ok zones =>
      cases zones with
      | nil =>
        rw [show (deleteRoute53Record pm o).2 =
              [Call.listHostedZonesByName pm.cfg.baseDomain] by
            simp [deleteRoute53Record, getHostedZoneID, -List.getLastD_eq_getLast?, hz]] at hmem
        simp [-List.getLastD_eq_getLast?] at hmem
      | cons zone zs =>
        cases hl : o.listResourceRecordSets
            (String.mk ((splitChar '/' zone.id.data).getLastD [])) pm.fullDomain with
        | error e =>
          rw [show (deleteRoute53Record pm o).2 =
                [Call.listHostedZonesByName pm.cfg.baseDomain,
                 Call.listResourceRecordSets
                   (String.mk ((splitChar '/' zone.id.data).getLastD []))
                   pm.fullDomain] by
              simp [deleteRoute53Record, getHostedZoneID, -List.getLastD_eq_getLast?, hz, hl]] at hmem
          simp [-List.getLastD_eq_getLast?] at hmem
        | ok rrs =>
          cases rrs with
          | nil =>
            rw [show (deleteRoute53Record pm o).2 =
                  [Call.listHostedZonesByName pm.cfg.baseDomain,
                   Call.listResourceRecordSets
                     (String.mk ((splitChar '/' zone.id.data).getLastD []))
                     pm.fullDomain] by
                simp [deleteRoute53Record, getHostedZoneID, -List.getLastD_eq_getLast?, hz, hl]] at hmem
            simp [-List.getLastD_eq_getLast?] at hmem
          | cons rr0 rest =>
            by_cases hname : rr0.name = pm.fullDomain ++ "."
            · rw [show (deleteRoute53Record pm o).2 =
                    [Call.listHostedZonesByName pm.cfg.baseDomain,
                     Call.listResourceRecordSets
                       (String.mk ((splitChar '/' zone.id.data).getLastD []))
                       pm.fullDomain,
                     Call.deleteRecord
                       (String.mk ((splitChar '/' zone.id.data).getLastD [])) rr0] by
                  cases hdel : o.deleteRecord
                      (String.mk ((splitChar '/' zone.id.data).getLastD [])) rr0 <;>
                    simp [deleteRoute53Record, getHostedZoneID, -List.getLastD_eq_getLast?, hz, hl, hname, hdel]] at hmem
              simp [-List.getLastD_eq_getLast?] at hmem
              obtain ⟨hzz, hrr⟩ := hmem
              subst hzz
              subst hrr
              exact ⟨rest, by simp [getHostedZoneID, -List.getLastD_eq_getLast?, hz], hl, hname⟩
            · rw [show (deleteRoute53Record pm o).2 =
                    [Call.listHostedZonesByName pm.cfg.baseDomain,
                     Call.listResourceRecordSets
                       (String.mk ((splitChar '/' zone.id.data).getLastD []))
                       pm.fullDomain] by
                  simp [deleteRoute53Record, getHostedZoneID, -List.getLastD_eq_getLast?, hz, hl, hname]] at hmem
              simp [-List.getLastD_eq_getLast?] at hmem
  · intro zone zs hz
    refine ⟨fun hl => ?_, fun rr rest hl hname => ?_, fun e hl => ?_⟩
    · simp [deleteRoute53Record, getHostedZoneID, -List.getLastD_eq_getLast?, hz, hl]
    · simp [deleteRoute53Record, getHostedZoneID, -List.getLastD_eq_getLast?, hz, hl, hname]
    · simp [deleteRoute53Record, getHostedZoneID, -List.getLastD_eq_getLast?, hz, hl]
  · intro e he
    cases hz : o.listHostedZonesByName pm.cfg.baseDomain with
    | error e0 =>
      have : (getHostedZoneID pm o).1 = .error ("failed to list hosted zones: " ++ e0) := by
        simp [getHostedZoneID, -List.getLastD_eq_getLast?, hz]
      rw [this] at he
      cases he
      simp [deleteRoute53Record, getHostedZoneID, -List.getLastD_eq_getLast?, hz]
    | ok zones =>
      cases zones with
      | nil =>
        have : (getHostedZoneID pm o).1 =
            .error ("no hosted zone found for domain: " ++ pm.cfg.baseDomain) := by
          simp [getHostedZoneID, -List.getLastD_eq_getLast?, hz]
        rw [this] at he
        cases he
        simp [deleteRoute53Record, getHostedZoneID, -List.getLastD_eq_getLast?, hz]
      | cons zone zs =>
        have : (getHostedZoneID pm o).1 =
            .ok (String.mk ((splitChar '/' zone.id.data).getLastD [])) := by
          simp [getHostedZoneID, -List.getLastD_eq_getLast?, hz]
        rw [this] at he
        cases he

/-- Witness for the amended C4: on the deployed oracle the pre-read matches
and a delete is submitted; the first conjunct reconstructs the matching
pre-read from membership of the delete call in the trace. -/
theorem deleteRoute53Record_guarded_witness :
    ∃ rest, (getHostedZoneID exPM oracleDeployed).1 = .ok "Z123" ∧
      oracleDeployed.listResourceRecordSets "Z123" exPM.fullDomain =
        .ok ({ name := "pr-42-site.example.test.", value := "d111.cloudfront.net" } :: rest) ∧
      ({ name := "pr-42-site.example.test.", value := "d111.cloudfront.net" } : RRSet).name =
        exPM.fullDomain ++ "." :=
  (deleteRoute53Record_guarded exPM oracleDeployed).1 "Z123"
    { name := "pr-42-site.example.test.", value := "d111.cloudfront.net" } (by decide)

/-! ## Trace-shape lemmas for the always-non-fatal cleanup steps -/

/-- Every call issued by `deleteRoute53Record` is a zone listing, a record
listing, or a record deletion. -/
theorem deleteRoute53Record_trace_shape (pm : PreviewManager) (o : Oracle) :
    ∀ c ∈ (deleteRoute53Record pm o).2,
      (∃ s, c = Call.listHostedZonesByName s) ∨
      (∃ a b, c = Call.listResourceRecordSets a b) ∨
      (∃ z rr, c = Call.deleteRecord z rr) := by
  intro c hc
  cases hz : o.listHostedZonesByName pm.cfg.baseDomain with
  | error e =>
    rw [show (deleteRoute53Record pm o).2 =
          [Call.listHostedZonesByName pm.cfg.baseDomain] by
        simp [deleteRoute53Record, getHostedZoneID, hz]] at hc
    simp at hc
    exact .inl ⟨_, hc⟩
  | ok zones =>
    cases zones with
    | nil =>
      rw [show (deleteRoute53Record pm o).2 =
            [Call.listHostedZonesByName pm.cfg.baseDomain] by
          simp [deleteRoute53Record, getHostedZoneID, hz]] at hc
      simp at hc
      exact .inl ⟨_, hc⟩
    | cons zone zs =>
      cases hl : o.listResourceRecordSets
          (String.mk ((splitChar '/' zone.id.data).getLastD [])) pm.fullDomain with
      | error e =>
        rw [show (deleteRoute53Record pm o).2 =
              [Call.listHostedZonesByName pm.cfg.baseDomain,
               Call.listResourceRecordSets
                 (String.mk ((splitChar '/' zone.id.data).getLastD []))
                 pm.fullDomain] by
            simp [deleteRoute53Record, getHostedZoneID,
              -List.getLastD_eq_getLast?, hz, hl]] at hc
        rcases List.mem_cons.mp hc with h1 | h2
        · exact .inl ⟨_, h1⟩
        · simp at h2
          exact .inr (.inl ⟨_, _, h2⟩)
      | ok rrs =>
        cases rrs with
        | nil =>
          rw [show (deleteRoute53Record pm o).2 =
                [Call.listHostedZonesByName pm.cfg.baseDomain,
                 Call.listResourceRecordSets
                   (String.mk ((splitChar '/' zone.id.data).getLastD []))
                   pm.fullDomain] by
              simp [deleteRoute53Record, getHostedZoneID,
                -List.getLastD_eq_getLast?, hz, hl]] at hc
          rcases List.mem_cons.mp hc with h1 | h2
          · exact .inl ⟨_, h1⟩
          · simp at h2
            exact .inr (.inl ⟨_, _, h2⟩)
        | cons rr0 rest =>
          by_cases hname : rr0.name = pm.fullDomain ++ "."
          · rw [show (deleteRoute53Record pm o).2 =
                  [Call.listHostedZonesByName pm.cfg.baseDomain,
                   Call.listResourceRecordSets
                     (String.mk ((splitChar '/' zone.id.data).getLastD []))
                     pm.fullDomain,
                   Call.deleteRecord
                     (String.mk ((splitChar '/' zone.id.data).getLastD [])) rr0] by
                cases hdel : o.deleteRecord
                    (String.mk ((splitChar '/' zone.id.data).getLastD [])) rr0 <;>
                  simp [deleteRoute53Record, getHostedZoneID,
                    -List.getLastD_eq_getLast?, hz, hl, hname, hdel]] at hc
            rcases List.mem_cons.mp hc with h1 | h2
            · exact .inl ⟨_, h1⟩
            · rcases List.mem_cons.mp h2 with h3 | h4
              · exact .inr (.inl ⟨_, _, h3⟩)
              · simp at h4
                exact .inr (.inr ⟨_, _, h4⟩)
          · rw [show (deleteRoute53Record pm o).2 =
                  [Call.listHostedZonesByName pm.cfg.baseDomain,
                   Call.listResourceRecordSets
                     (String.mk ((splitChar '/' zone.id.data).getLastD []))
                     pm.fullDomain] by
                simp [deleteRoute53Record, getHostedZoneID,
                  -List.getLastD_eq_getLast?, hz, hl, hname]] at hc
            rcases List.mem_cons.mp hc with h1 | h2
            · exact .inl ⟨_, h1⟩
            · simp at h2
              exact .inr (.inl ⟨_, _, h2⟩)

/-- Every call issued by `postCleanupGitHubComment` is a comment creation. -/
theorem postCleanupGitHubComment_trace_shape (pm : PreviewManager) (o : Oracle) :
    ∀ c ∈ (postCleanupGitHubComment pm o).2,
      ∃ ow re n b, c = Call.createComment ow re n b := by
  intro c hc
  by_cases hgh : o.githubNil
  · rw [show (postCleanupGitHubComment pm o).2 = [] by
        simp [postCleanupGitHubComment, hgh]] at hc
    simp at hc
  · rw [show (postCleanupGitHubComment pm o).2 =
          [Call.createComment pm.cfg.repoOwner pm.cfg.repoName pm.cfg.prNumber
            (cleanupCommentBody pm)] by
        cases hcc : o.createComment (cleanupCommentBody pm) <;>
          simp [postCleanupGitHubComment, hgh, hcc]] at hc
    simp at hc
    exact ⟨_, _, _, _, hc⟩

/-! ## C7: Cleanup on an empty environment succeeds -/

/-- C7: when no distribution carries the derived alias and the bucket
existence check fails (the bucket is absent), `Cleanup` returns success —
every lookup treats absence as an acceptable end state, and the DNS and
notification steps can never turn the run fatal. -/
theorem cleanup_empty_env_ok (pm : PreviewManager) (o : Oracle)
    (ds : List DistSummary) (e : String)
    (hList : o.listDistributions = .ok ds)
    (hNo : ∀ d ∈ ds, pm.fullDomain ∉ d.aliases)
    (hHead : o.headBucket pm.bucketName = .error e) :
    (Cleanup pm o).1 = .ok () := by
  have hfind : List.find? (fun d => decide (pm.fullDomain ∈ d.aliases)) ds = none := by
    rw [List.find?_eq_none]
    intro d hd
    simpa using hNo d hd
  have hf : findCloudFrontDistribution pm o = (.ok "", [.listDistributions]) := by
    simp [findCloudFrontDistribution, hList, hfind]
  have hb : deleteS3Bucket pm o = (.ok (), [.headBucket pm.bucketName]) := by
    simp [deleteS3Bucket, hHead]
  simp [Cleanup, hf, hb]

/-- An entirely empty environment: listing distributions succeeds with an
empty account, every other resource is absent or unreachable. -/
def oracleEmptyEnv : Oracle :=
  { oracleDown with listDistributions := .ok [] }

/-- Witness for C7 on an account with no resources. -/
theorem cleanup_empty_env_ok_witness :
    (Cleanup exPM oracleEmptyEnv).1 = .ok () :=
  cleanup_empty_env_ok exPM oracleEmptyEnv [] "down" rfl (by simp) rfl

/-! ## C10: any HeadBucket error short-circuits bucket deletion -/

/-- C10: every error from the bucket existence check — not only true
absence — makes `deleteS3Bucket` return success immediately, issuing no
listing, object deletion or bucket deletion; consequently a `Cleanup` run in
which the remaining steps find nothing still reports overall success while
the bucket (and any contents) remain untouched. -/
theorem deleteS3Bucket_head_error_success (pm : PreviewManager) (o : Oracle)
    (e : String) (hHead : o.headBucket pm.bucketName = .error e) :
    deleteS3Bucket pm o = (.ok (), [Call.headBucket pm.bucketName]) ∧
    (∀ ds, o.listDistributions = .ok ds →
      (∀ d ∈ ds, pm.fullDomain ∉ d.aliases) →
      (Cleanup pm o).1 = .ok () ∧
      (∀ ks, Call.deleteObjects pm.bucketName ks ∉ (Cleanup pm o).2) ∧
      Call.deleteBucket pm.bucketName ∉ (Cleanup pm o).2) := by
  have hb : deleteS3Bucket pm o = (.ok (), [.headBucket pm.bucketName]) := by
    simp [deleteS3Bucket, hHead]
  refine ⟨hb, fun ds hList hNo => ?_⟩
  have hfind : List.find? (fun d => decide (pm.fullDomain ∈ d.aliases)) ds = none := by
    rw [List.find?_eq_none]
    intro d hd
    simpa using hNo d hd
  have hf : findCloudFrontDistribution pm o = (.ok "", [.listDistributions]) := by
    simp [findCloudFrontDistribution, hList, hfind]
  have hC : Cleanup pm o = (.ok (),
      [Call.listDistributions] ++ [] ++ (deleteRoute53Record pm o).2 ++
        [Call.headBucket pm.bucketName] ++ (postCleanupGitHubComment pm o).2) := by
    simp [Cleanup, hf, hb]
  rw [hC]
  refine ⟨rfl, fun ks hmem => ?_, fun hmem => ?_⟩
  · simp at hmem
    rcases hmem with hmem | hmem
    · rcases deleteRoute53Record_trace_shape pm o _ hmem with ⟨_, h⟩ | ⟨_, _, h⟩ | ⟨_, _, h⟩ <;>
        simp at h
    · rcases postCleanupGitHubComment_trace_shape pm o _ hmem with ⟨_, _, _, _, h⟩
      simp at h
  · simp at hmem
    rcases hmem with hmem | hmem
    · rcases deleteRoute53Record_trace_shape pm o _ hmem with ⟨_, h⟩ | ⟨_, _, h⟩ | ⟨_, _, h⟩ <;>
        simp at h
    · rcases postCleanupGitHubComment_trace_shape pm o _ hmem with ⟨_, _, _, _, h⟩
      simp at h

/-- Witness for C10: an oracle whose `HeadBucket` fails with a transient
error (not a not-found) on an otherwise empty account. -/
theorem deleteS3Bucket_head_error_success_witness :
    deleteS3Bucket exPM oracleEmptyEnv = (.ok (), [Call.headBucket "pr-42-site"]) ∧
    (Cleanup exPM oracleEmptyEnv).1 = .ok () := by
  have h := deleteS3Bucket_head_error_success exPM oracleEmptyEnv "down" rfl
  exact ⟨h.1.trans (by decide), (h.2 [] rfl (by simp)).1⟩

/-! ## C5: re-running Deploy on a fully deployed environment creates nothing -/

/-- Every call issued by the content sync is an object upload. -/
theorem syncWalk_trace_shape (pm : PreviewManager) (o : Oracle) :
    ∀ (items : List WalkItem), ∀ c ∈ (syncWalk pm o items).2,
      ∃ b k ct, c = Call.putObject b k ct := by
  intro items
  induction items with
  | nil => intro c hc; simp [syncWalk] at hc
  | cons it rest ih =>
    intro c hc
    cases it with
    | fault m => simp [syncWalk] at hc
    | dir =>
      refine ih c ?_
      simpa [syncWalk] using hc
    | file path data =>
      cases hrel : o.relSlash path with
      | error e =>
        rw [show (syncWalk pm o (.file path data :: rest)).2 = [] by
            simp [syncWalk, hrel]] at hc
        simp at hc
      | ok s3Key =>
        cases data with
        | error e =>
          rw [show (syncWalk pm o (.file path (.error e) :: rest)).2 = [] by
              simp [syncWalk, hrel]] at hc
          simp at hc
        | ok bytes =>
          cases hput : o.putObject pm.bucketName s3Key (getContentType path) with
          | error e =>
            rw [show (syncWalk pm o (.file path (.ok bytes) :: rest)).2 =
                  [Call.putObject pm.bucketName s3Key (getContentType path)] by
                simp [syncWalk, hrel, hput]] at hc
            simp at hc
            exact ⟨_, _, _, hc⟩
          | ok u =>
            rw [show (syncWalk pm o (.file path (.ok bytes) :: rest)).2 =
                  Call.putObject pm.bucketName s3Key (getContentType path)
                    :: (syncWalk pm o rest).2 by
                simp [syncWalk, hrel, hput]] at hc
            rcases List.mem_cons.mp hc with h1 | h2
            · exact ⟨_, _, _, h1⟩
            · exact ih c h2

/-- Every call issued by `postGitHubComment` is a comment creation. -/
theorem postGitHubComment_trace_shape (pm : PreviewManager) (o : Oracle) :
    ∀ c ∈ (postGitHubComment pm o).2,
      ∃ ow re n b, c = Call.createComment ow re n b := by
  intro c hc
  by_cases hgh : o.githubNil
  · rw [show (postGitHubComment pm o).2 = [] by
        simp [postGitHubComment, hgh]] at hc
    simp at hc
  · rw [show (postGitHubComment pm o).2 =
          [Call.createComment pm.cfg.repoOwner pm.cfg.repoName pm.cfg.prNumber
            (deployCommentBody pm)] by
        cases hcc : o.createComment (deployCommentBody pm) <;>
          simp [postGitHubComment, hgh, hcc]] at hc
    simp at hc
    exact ⟨_, _, _, _, hc⟩

/-- C5: re-running `Deploy` against a fully deployed environment — the
bucket exists, an OAC with the derived name is listed, a distribution whose
alias set contains the derived hostname is listed, and the remaining
steps succeed — performs no bucket creation, no OAC creation and no
distribution creation, and the run succeeds. -/
theorem deploy_rerun_no_duplicate_creates (pm : PreviewManager) (o : Oracle)
    (oacs : List OAC) (oac : OAC) (ds : List DistSummary) (d : DistSummary)
    (dist : Dist) (z : Zone) (zs : List Zone)
    (hHead : o.headBucket pm.bucketName = .ok ())
    (hSync : (syncFilesToS3 pm o).1 = .ok ())
    (hOACList : o.listOriginAccessControls = .ok oacs)
    (hOACFind : oacs.find? (fun x => x.name == "OAC-" ++ pm.bucketName) = some oac)
    (hDistList : o.listDistributions = .ok ds)
    (hDistFind : ds.find? (fun x => x.aliases.contains pm.fullDomain) = some d)
    (hDistId : d.id ≠ "")
    (hGet : o.getDistribution d.id = .ok dist)
    (hPut : o.putBucketPolicy pm.bucketName
      (bucketPolicyDoc pm.bucketName dist.arn) = .ok ())
    (hInv : o.createInvalidation d.id = .ok ())
    (hZones : o.listHostedZonesByName pm.cfg.baseDomain = .ok (z :: zs))
    (hUp : o.upsertRecord (String.mk ((splitChar '/' z.id.data).getLastD []))
      pm.fullDomain dist.domainName = .ok ()) :
    (Deploy pm o).1 = .ok () ∧
    (∀ b r, Call.createBucket b r ∉ (Deploy pm o).2) ∧
    (∀ n, Call.createOriginAccessControl n ∉ (Deploy pm o).2) ∧
    (∀ a oid cert, Call.createDistribution a oid cert ∉ (Deploy pm o).2) := by
  rcases hs2 : syncFilesToS3 pm o with ⟨r2, t2⟩
  rw [hs2] at hSync
  simp at hSync
  subst hSync
  have ht2 : (syncWalk pm o o.walkItems).2 = t2 := congrArg Prod.snd hs2
  rcases hs8 : postGitHubComment pm o with ⟨r8, t8⟩
  have ht8 : (postGitHubComment pm o).2 = t8 := congrArg Prod.snd hs8
  have h1 : createS3Bucket pm o = (.ok (), [.headBucket pm.bucketName]) := by
    simp [createS3Bucket, hHead]
  have h3 : getOrCreateOAC pm o = (.ok oac.id, [.listOriginAccessControls]) := by
    simp only [getOrCreateOAC, hOACList, hOACFind]
  have h4 : findCloudFrontDistribution pm o = (.ok d.id, [.listDistributions]) := by
    simp only [findCloudFrontDistribution, hDistList, hDistFind]
  have h4' : getOrCreateCloudFrontDistribution pm o oac.id =
      (.ok d.id, [.listDistributions]) := by
    simp [getOrCreateCloudFrontDistribution, h4, hDistId]
  have h5 : setBucketPolicyForOAC pm o d.id = (.ok (),
      [.getDistribution d.id,
       .putBucketPolicy pm.bucketName (bucketPolicyDoc pm.bucketName dist.arn)]) := by
    simp [setBucketPolicyForOAC, hGet, hPut]
  have h6 : invalidateCloudFrontCache pm o d.id =
      (.ok (), [.createInvalidation d.id "/*"]) := by
    simp [invalidateCloudFrontCache, hInv]
  have hzid : getHostedZoneID pm o =
      (.ok (String.mk ((splitChar '/' z.id.data).getLastD [])),
       [.listHostedZonesByName pm.cfg.baseDomain]) := by
    simp only [getHostedZoneID, hZones]
  have h7 : updateRoute53 pm o d.id = (.ok (),
      [.listHostedZonesByName pm.cfg.baseDomain, .getDistribution d.id,
       .upsertRecord (String.mk ((splitChar '/' z.id.data).getLastD []))
         pm.fullDomain dist.domainName]) := by
    simp only [updateRoute53, hzid, hGet, hUp]
    rfl
  have hD : Deploy pm o = (.ok (),
      [Call.headBucket pm.bucketName] ++ t2 ++
      [Call.listOriginAccessControls] ++ [Call.listDistributions] ++
      [Call.getDistribution d.id,
       Call.putBucketPolicy pm.bucketName (bucketPolicyDoc pm.bucketName dist.arn)] ++
      [Call.createInvalidation d.id "/*"] ++
      [Call.listHostedZonesByName pm.cfg.baseDomain, Call.getDistribution d.id,
       Call.upsertRecord (String.mk ((splitChar '/' z.id.data).getLastD []))
         pm.fullDomain dist.domainName] ++ t8) := by
    simp only [Deploy, h1, hs2, h3, h4', h5, h6, h7, hs8]
  rw [hD]
  refine ⟨rfl, fun b r hmem => ?_, fun n hmem => ?_, fun a oid cert hmem => ?_⟩ <;>
  · simp at hmem
    rcases hmem with hmem | hmem
    · rw [← ht2] at hmem
      rcases syncWalk_trace_shape pm o o.walkItems _ hmem with ⟨_, _, _, h⟩
      simp at h
    · rw [← ht8] at hmem
      rcases postGitHubComment_trace_shape pm o _ hmem with ⟨_, _, _, _, h⟩
      simp at h

/-- Witness for C5: re-deploying over `oracleDeployed` succeeds and issues
no creation call. -/
theorem deploy_rerun_no_duplicate_creates_witness :
    (Deploy exPM oracleDeployed).1 = .ok () ∧
    Call.createBucket "pr-42-site" "us-east-1" ∉ (Deploy exPM oracleDeployed).2 ∧
    Call.createOriginAccessControl "OAC-pr-42-site" ∉ (Deploy exPM oracleDeployed).2 ∧
    Call.createDistribution "pr-42-site.example.test" "OAC1" "arn:aws:acm:::cert" ∉
      (Deploy exPM oracleDeployed).2 := by
  have h := deploy_rerun_no_duplicate_creates exPM oracleDeployed
    [{ name := "OAC-pr-42-site", id := "OAC1" }]
    { name := "OAC-pr-42-site", id := "OAC1" }
    [{ id := "DIST1", aliases := ["pr-42-site.example.test"] }]
    { id := "DIST1", aliases := ["pr-42-site.example.test"] }
    { arn := "arn:aws:cloudfront::1:distribution/DIST1",
      domainName := "d111.cloudfront.net" }
    { name := "example.test.", id := "/hostedzone/Z123" } []
    rfl (by decide) rfl (by decide) rfl (by decide) (by decide) rfl rfl rfl rfl rfl
  exact ⟨h.1, h.2.1 "pr-42-site" "us-east-1", h.2.2.1 "OAC-pr-42-site",
    h.2.2.2 "pr-42-site.example.test" "OAC1" "arn:aws:acm:::cert"⟩

/-! ## C6: Deploy runs its steps in fixed order and stops at the first
failure, except that a notification failure is non-fatal -/

/-- C6: `Deploy` is exactly the fixed chain bucket → sync → OAC →
distribution → bucket policy → invalidation → DNS upsert → notify: the first
failing step aborts the run with its wrapped error and a trace containing
only the steps up to and including it, and when the first seven steps
succeed the run returns success whatever the notification step does, its
trace appended last. -/
theorem deploy_order_first_failure (pm : PreviewManager) (o : Oracle) :
    (∀ e, (createS3Bucket pm o).1 = .error e →
      Deploy pm o = (.error ("failed to create S3 bucket: " ++ e),
        (createS3Bucket pm o).2)) ∧
    (∀ e, (createS3Bucket pm o).1 = .ok () → (syncFilesToS3 pm o).1 = .error e →
      Deploy pm o = (.error ("failed to sync files to S3: " ++ e),
        (createS3Bucket pm o).2 ++ (syncFilesToS3 pm o).2)) ∧
    (∀ e, (createS3Bucket pm o).1 = .ok () → (syncFilesToS3 pm o).1 = .ok () →
      (getOrCreateOAC pm o).1 = .error e →
      Deploy pm o = (.error ("failed to manage OAC: " ++ e),
        (createS3Bucket pm o).2 ++ (syncFilesToS3 pm o).2 ++
          (getOrCreateOAC pm o).2)) ∧
    (∀ e oacID, (createS3Bucket pm o).1 = .ok () → (syncFilesToS3 pm o).1 = .ok () →
      (getOrCreateOAC pm o).1 = .ok oacID →
      (getOrCreateCloudFrontDistribution pm o oacID).1 = .error e →
      Deploy pm o = (.error ("failed to manage CloudFront distribution: " ++ e),
        (createS3Bucket pm o).2 ++ (syncFilesToS3 pm o).2 ++
          (getOrCreateOAC pm o).2 ++
          (getOrCreateCloudFrontDistribution pm o oacID).2)) ∧
    (∀ e oacID did, (createS3Bucket pm o).1 = .ok () → (syncFilesToS3 pm o).1 = .ok () →
      (getOrCreateOAC pm o).1 = .ok oacID →
      (getOrCreateCloudFrontDistribution pm o oacID).1 = .ok did →
      (setBucketPolicyForOAC pm o did).1 = .error e →
      Deploy pm o = (.error ("failed to set bucket policy: " ++ e),
        (createS3Bucket pm o).2 ++ (syncFilesToS3 pm o).2 ++
          (getOrCreateOAC pm o).2 ++
          (getOrCreateCloudFrontDistribution pm o oacID).2 ++
          (setBucketPolicyForOAC pm o did).2)) ∧
    (∀ e oacID did, (createS3Bucket pm o).1 = .ok () → (syncFilesToS3 pm o).1 = .ok () →
      (getOrCreateOAC pm o).1 = .ok oacID →
      (getOrCreateCloudFrontDistribution pm o oacID).1 = .ok did →
      (setBucketPolicyForOAC pm o did).1 = .ok () →
      (invalidateCloudFrontCache pm o did).1 = .error e →
      Deploy pm o = (.error ("failed to invalidate CloudFront cache: " ++ e),
        (createS3Bucket pm o).2 ++ (syncFilesToS3 pm o).2 ++
          (getOrCreateOAC pm o).2 ++
          (getOrCreateCloudFrontDistribution pm o oacID).2 ++
          (setBucketPolicyForOAC pm o did).2 ++
          (invalidateCloudFrontCache pm o did).2)) ∧
    (∀ e oacID did, (createS3Bucket pm o).1 = .ok () → (syncFilesToS3 pm o).1 = .ok () →
      (getOrCreateOAC pm o).1 = .ok oacID →
      (getOrCreateCloudFrontDistribution pm o oacID).1 = .ok did →
      (setBucketPolicyForOAC pm o did).1 = .ok () →
      (invalidateCloudFrontCache pm o did).1 = .ok () →
      (updateRoute53 pm o did).1 = .error e →
      Deploy pm o = (.error ("failed to update Route53: " ++ e),
        (createS3Bucket pm o).2 ++ (syncFilesToS3 pm o).2 ++
          (getOrCreateOAC pm o).2 ++
          (getOrCreateCloudFrontDistribution pm o oacID).2 ++
          (setBucketPolicyForOAC pm o did).2 ++
          (invalidateCloudFrontCache pm o did).2 ++
          (updateRoute53 pm o did).2)) ∧
    (∀ oacID did, (createS3Bucket pm o).1 = .ok () → (syncFilesToS3 pm o).1 = .ok () →
      (getOrCreateOAC pm o).1 = .ok oacID →
      (getOrCreateCloudFrontDistribution pm o oacID).1 = .ok did →
      (setBucketPolicyForOAC pm o did).1 = .ok () →
      (invalidateCloudFrontCache pm o did).1 = .ok () →
      (updateRoute53 pm o did).1 = .ok () →
      Deploy pm o = (.ok (),
        (createS3Bucket pm o).2 ++ (syncFilesToS3 pm o).2 ++
          (getOrCreateOAC pm o).2 ++
          (getOrCreateCloudFrontDistribution pm o oacID).2 ++
          (setBucketPolicyForOAC pm o did).2 ++
          (invalidateCloudFrontCache pm o did).2 ++
          (updateRoute53 pm o did).2 ++ (postGitHubComment pm o).2)) := by
  refine ⟨?_, ?_, ?_, ?_, ?_, ?_, ?_, ?_⟩
  · intro e h1
    rcases hs1 : createS3Bucket pm o with ⟨r1, t1⟩
    rw [hs1] at h1
    simp at h1
    subst h1
    simp [Deploy, hs1]
  · intro e h1 h2
    rcases hs1 : createS3Bucket pm o with ⟨r1, t1⟩
    rcases hs2 : syncFilesToS3 pm o with ⟨r2, t2⟩
    rw [hs1] at h1
    rw [hs2] at h2
    simp at h1 h2
    subst h1
    subst h2
    simp [Deploy, hs1, hs2]
  · intro e h1 h2 h3
    rcases hs1 : createS3Bucket pm o with ⟨r1, t1⟩
    rcases hs2 : syncFilesToS3 pm o with ⟨r2, t2⟩
    rcases hs3 : getOrCreateOAC pm o with ⟨r3, t3⟩
    rw [hs1] at h1
    rw [hs2] at h2
    rw [hs3] at h3
    simp at h1 h2 h3
    subst h1
    subst h2
    subst h3
    simp [Deploy, hs1, hs2, hs3]
  · intro e oacID h1 h2 h3 h4
    rcases hs1 : createS3Bucket pm o with ⟨r1, t1⟩
    rcases hs2 : syncFilesToS3 pm o with ⟨r2, t2⟩
    rcases hs3 : getOrCreateOAC pm o with ⟨r3, t3⟩
    rcases hs4 : getOrCreateCloudFrontDistribution pm o oacID with ⟨r4, t4⟩
    rw [hs1] at h1
    rw [hs2] at h2
    rw [hs3] at h3
    rw [hs4] at h4
    simp at h1 h2 h3 h4
    subst h1
    subst h2
    subst h3
    subst h4
    simp [Deploy, hs1, hs2, hs3, hs4]
  · intro e oacID did h1 h2 h3 h4 h5
    rcases hs1 : createS3Bucket pm o with ⟨r1, t1⟩
    rcases hs2 : syncFilesToS3 pm o with ⟨r2, t2⟩
    rcases hs3 : getOrCreateOAC pm o with ⟨r3, t3⟩
    rcases hs4 : getOrCreateCloudFrontDistribution pm o oacID with ⟨r4, t4⟩
    rcases hs5 : setBucketPolicyForOAC pm o did with ⟨r5, t5⟩
    rw [hs1] at h1
    rw [hs2] at h2
    rw [hs3] at h3
    rw [hs4] at h4
    rw [hs5] at h5
    simp at h1 h2 h3 h4 h5
    subst h1
    subst h2
    subst h3
    subst h4
    subst h5
    simp [Deploy, hs1, hs2, hs3, hs4, hs5]
  · intro e oacID did h1 h2 h3 h4 h5 h6
    rcases hs1 : createS3Bucket pm o with ⟨r1, t1⟩
    rcases hs2 : syncFilesToS3 pm o with ⟨r2, t2⟩
    rcases hs3 : getOrCreateOAC pm o with ⟨r3, t3⟩
    rcases hs4 : getOrCreateCloudFrontDistribution pm o oacID with ⟨r4, t4⟩
    rcases hs5 : setBucketPolicyForOAC pm o did with ⟨r5, t5⟩
    rcases hs6 : invalidateCloudFrontCache pm o did with ⟨r6, t6⟩
    rw [hs1] at h1
    rw [hs2] at h2
    rw [hs3] at h3
    rw [hs4] at h4
    rw [hs5] at h5
    rw [hs6] at h6
    simp at h1 h2 h3 h4 h5 h6
    subst h1
    subst h2
    subst h3
    subst h4
    subst h5
    subst h6
    simp [Deploy, hs1, hs2, hs3, hs4, hs5, hs6]
  · intro e oacID did h1 h2 h3 h4 h5 h6 h7
    rcases hs1 : createS3Bucket pm o with ⟨r1, t1⟩
    rcases hs2 : syncFilesToS3 pm o with ⟨r2, t2⟩
    rcases hs3 : getOrCreateOAC pm o with ⟨r3, t3⟩
    rcases hs4 : getOrCreateCloudFrontDistribution pm o oacID with ⟨r4, t4⟩
    rcases hs5 : setBucketPolicyForOAC pm o did with ⟨r5, t5⟩
    rcases hs6 : invalidateCloudFrontCache pm o did with ⟨r6, t6⟩
    rcases hs7 : updateRoute53 pm o did with ⟨r7, t7⟩
    rw [hs1] at h1
    rw [hs2] at h2
    rw [hs3] at h3
    rw [hs4] at h4
    rw [hs5] at h5
    rw [hs6] at h6
    rw [hs7] at h7
    simp at h1 h2 h3 h4 h5 h6 h7
    subst h1
    subst h2
    subst h3
    subst h4
    subst h5
    subst h6
    subst h7
    simp [Deploy, hs1, hs2, hs3, hs4, hs5, hs6, hs7]
  · intro oacID did h1 h2 h3 h4 h5 h6 h7
    rcases hs1 : createS3Bucket pm o with ⟨r1, t1⟩
    rcases hs2 : syncFilesToS3 pm o with ⟨r2, t2⟩
    rcases hs3 : getOrCreateOAC pm o with ⟨r3, t3⟩
    rcases hs4 : getOrCreateCloudFrontDistribution pm o oacID with ⟨r4, t4⟩
    rcases hs5 : setBucketPolicyForOAC pm o did with ⟨r5, t5⟩
    rcases hs6 : invalidateCloudFrontCache pm o did with ⟨r6, t6⟩
    rcases hs7 : updateRoute53 pm o did with ⟨r7, t7⟩
    rw [hs1] at h1
    rw [hs2] at h2
    rw [hs3] at h3
    rw [hs4] at h4
    rw [hs5] at h5
    rw [hs6] at h6
    rw [hs7] at h7
    simp at h1 h2 h3 h4 h5 h6 h7
    subst h1
    subst h2
    subst h3
    subst h4
    subst h5
    subst h6
    subst h7
    simp [Deploy, hs1, hs2, hs3, hs4, hs5, hs6, hs7]

/-- Witness for C6: on the fully deployed oracle the first seven steps
succeed, so `Deploy` returns success with all eight step traces in order. -/
theorem deploy_order_first_failure_witness :
    Deploy exPM oracleDeployed = (.ok (),
      (createS3Bucket exPM oracleDeployed).2 ++
        (syncFilesToS3 exPM oracleDeployed).2 ++
        (getOrCreateOAC exPM oracleDeployed).2 ++
        (getOrCreateCloudFrontDistribution exPM oracleDeployed "OAC1").2 ++
        (setBucketPolicyForOAC exPM oracleDeployed "DIST1").2 ++
        (invalidateCloudFrontCache exPM oracleDeployed "DIST1").2 ++
        (updateRoute53 exPM oracleDeployed "DIST1").2 ++
        (postGitHubComment exPM oracleDeployed).2) :=
  (deploy_order_first_failure exPM oracleDeployed).2.2.2.2.2.2.2 "OAC1" "DIST1"
    (by decide) (by decide) (by decide) (by decide) (by decide) (by decide) (by decide)

end PreviewInt
